import Mathlib

/-!
Shallow embedding of the simulation core of `src/components/Game.tsx`
(the "PULSE: One Click Jump and Shoot" arcade engine).

Conventions of the embedding:
* JavaScript numbers are modelled by `ℚ`.  The transcendental JavaScript
  `Math` functions and the stream of `Math.random()` results are abstracted
  into an explicit oracle structure `JsEnv`; every definition that the source
  feeds through `Math.sqrt` / `Math.sin` / `Math.cos` / `Math.atan2` /
  `Math.random()` consumes the oracle instead, and the `randIdx` counter in
  the game state records how many `Math.random()` draws have been consumed,
  so that one fixed oracle determines a whole run.
* React's `useState` / `useRef` cells are collected into one record
  `GameSt`; `setScore` / `setGameState` become field updates.
* `playSound` performs Web-Audio synthesis and wall-clock throttling, which
  are rendering/host concerns; the embedding records the sequence of
  `playSound` invocations in the `sounds` log.
* `GAME_WIDTH`, `GAME_HEIGHT`, `PHYSICS.MAX_FUEL` and
  `PHYSICS.AIR_RESISTANCE` come from `src/constants.ts`, which is not part
  of the provided sources; they are modelled from the spec as the parameter
  record `Consts` ("fixed logical coordinate space (width x height
  constants)", "fixed damping constant", full fuel at reset).
-/

namespace OCJS

/-- Game.tsx `GameState` enum (`src/types.ts`, embedded in the repo's related
type declarations): `START`, `PLAYING`, `GAMEOVER`. -/
inductive GameState where
  | START
  | PLAYING
  | GAMEOVER
deriving DecidableEq, Repr

/-- The five cue kinds accepted by `playSound`. -/
inductive Sound where
  | jump
  | shockwave
  | pulse
  | kill
  | deadjump
deriving DecidableEq, Repr

/-- Modelled from the spec: the `PICO8_COLORS` entries of the missing
`src/constants.ts` that the engine stores on particles.  The concrete hex
strings are rendering data; the engine only ever copies them around, so an
enumeration of the used palette entries is a faithful stand-in. -/
inductive Color where
  | white
  | yellow
  | orange
  | hotPink
deriving DecidableEq, Repr

/-- Modelled from the spec: the constants of the missing `src/constants.ts`
(`GAME_WIDTH`, `GAME_HEIGHT`, `PHYSICS.MAX_FUEL`, `PHYSICS.AIR_RESISTANCE`).
The spec fixes their roles ("fixed logical coordinate space", "fixed damping
constant", fuel refilled to max) but not their numeric values, so the
development is parametric in them. -/
structure Consts where
  GAME_WIDTH : ℚ
  GAME_HEIGHT : ℚ
  MAX_FUEL : ℚ
  AIR_RESISTANCE : ℚ
deriving DecidableEq, Repr

/-- Oracle for the JavaScript `Math` library: `sqrt`, `sin`, `cos`, `atan2`
stand for the corresponding `Math` functions, `sinpi p` stands for the
composite `Math.sin(p * Math.PI)` used for the shockwave easing, and
`rand n` is the value produced by the `n`-th `Math.random()` call of a run
(the game state's `randIdx` counts the calls already consumed). -/
structure JsEnv where
  sqrt : ℚ → ℚ
  sin : ℚ → ℚ
  cos : ℚ → ℚ
  atan2 : ℚ → ℚ → ℚ
  sinpi : ℚ → ℚ
  rand : ℕ → ℚ

/-- `Player` record (`src/types.ts` shape plus the `flashTimer` field that
`Game.tsx` adds to its player ref). -/
structure Player where
  x : ℚ
  y : ℚ
  width : ℚ
  height : ℚ
  vx : ℚ
  vy : ℚ
  fuel : ℚ
  maxFuel : ℚ
  flashTimer : ℚ
deriving DecidableEq, Repr

/-- `Enemy` record. -/
structure Enemy where
  id : ℕ
  x : ℚ
  y : ℚ
  radius : ℚ
  speed : ℚ
  isDead : Bool
deriving DecidableEq, Repr

/-- `Particle` record. -/
structure Particle where
  x : ℚ
  y : ℚ
  vx : ℚ
  vy : ℚ
  life : ℚ
  maxLife : ℚ
  color : Color
deriving DecidableEq, Repr

/-- `Pulse` record. -/
structure Pulse where
  x : ℚ
  y : ℚ
  width : ℚ
  life : ℚ
  maxLife : ℚ
  isSuper : Bool
deriving DecidableEq, Repr

/-- `Shockwave` record. -/
structure Shockwave where
  x : ℚ
  y : ℚ
  radius : ℚ
  maxRadius : ℚ
  life : ℚ
  maxLife : ℚ
  id : ℕ
deriving DecidableEq, Repr

/-- The camera-shake cell `shakeRef`. -/
structure Shake where
  x : ℚ
  y : ℚ
  intensity : ℚ
deriving DecidableEq, Repr

/-- The fields of `GameConfig` that the simulation core reads.  The purely
cosmetic fields (`cursorScale`, `cursorColor`, `footerText`,
`showCustomCursor`, `playerColor`, `playerShape`, `crtEnabled`) never enter
the update logic and are omitted. -/
structure GameConfig where
  gravity : ℚ
  recoilForce : ℚ
  fuelRegen : ℚ
  fuelConsumption : ℚ
  enemySpawnRate : ℚ
  bounceElasticity : ℚ
  difficultyScale : ℚ
  deadZoneThreshold : ℚ
  superJumpMultiplier : ℚ
  spawnCurve : List ℚ
  deadJumpEnabled : Bool
  burningEnabled : Bool
  burningRadius : ℚ
  burningDuration : ℚ
  playerSize : ℚ
  audioEnabled : Bool
  bgmVolume : ℚ
  sfxVolume : ℚ
deriving DecidableEq, Repr

/-- The complete mutable state of one `Game` component instance: the React
state cells (`gameState`, `score`) and the refs (`elapsedTimeRef`,
`invincibilityFramesRef`, `playerRef`, `enemiesRef`, `particlesRef`,
`pulsesRef`, `shockwavesRef`, `shakeRef`, the id counters), plus the
bookkeeping fields of the embedding (`randIdx`, `sounds`). -/
structure GameSt where
  gameState : GameState
  score : ℤ
  elapsedTime : ℚ
  invincibilityFrames : ℚ
  player : Player
  enemies : List Enemy
  particles : List Particle
  pulses : List Pulse
  shockwaves : List Shockwave
  shake : Shake
  enemyIdCounter : ℕ
  shockwaveIdCounter : ℕ
  randIdx : ℕ
  sounds : List Sound
deriving DecidableEq, Repr

/-- Record one `playSound(type)` invocation (synthesis and wall-clock
throttling are host concerns, see the file header). -/
def playSound (s : Sound) (log : List Sound) : List Sound :=
  log ++ [s]

/-- The initial player value of `playerRef` (Game.tsx lines 39-49),
also rebuilt by `resetGame`. -/
def initPlayer (K : Consts) (cfg : GameConfig) : Player where
  x := K.GAME_WIDTH / 2 - cfg.playerSize / 2
  y := K.GAME_HEIGHT / 2 - 100
  width := cfg.playerSize
  height := cfg.playerSize
  vx := 0
  vy := 0
  fuel := K.MAX_FUEL
  maxFuel := K.MAX_FUEL
  flashTimer := 0

/-- The state of a freshly mounted `Game` component: `START`, score 0,
empty entity collections, zeroed timers and counters. -/
def initState (K : Consts) (cfg : GameConfig) : GameSt where
  gameState := GameState.START
  score := 0
  elapsedTime := 0
  invincibilityFrames := 0
  player := initPlayer K cfg
  enemies := []
  particles := []
  pulses := []
  shockwaves := []
  shake := { x := 0, y := 0, intensity := 0 }
  enemyIdCounter := 0
  shockwaveIdCounter := 0
  randIdx := 0
  sounds := []

/-- `resetGame` (Game.tsx lines 179-201): reinitialise the player, clear all
transient entity collections and timers, zero the score, enter `PLAYING`,
and play a `pulse` cue when audio is enabled.  The id counters survive a
reset (the source never resets them). -/
def resetGame (K : Consts) (cfg : GameConfig) (st : GameSt) : GameSt :=
  { st with
    player := initPlayer K cfg
    enemies := []
    particles := []
    pulses := []
    shockwaves := []
    shake := { x := 0, y := 0, intensity := 0 }
    elapsedTime := 0
    invincibilityFrames := 0
    score := 0
    gameState := GameState.PLAYING
    sounds := if cfg.audioEnabled then playSound Sound.pulse st.sounds else st.sounds }

/-- `triggerShockwave(x, y, radiusScale)` (Game.tsx lines 203-215): a no-op
when `burningEnabled` is off; otherwise push a new shockwave of
`maxRadius = burningRadius * radiusScale` and life `burningDuration`, and
play a `shockwave` cue. -/
def triggerShockwave (cfg : GameConfig) (x y radiusScale : ℚ) (st : GameSt) : GameSt :=
  if !cfg.burningEnabled then st
  else
    { st with
      shockwaves := st.shockwaves ++
        [{ x := x, y := y, radius := 0, maxRadius := cfg.burningRadius * radiusScale,
           life := cfg.burningDuration, maxLife := cfg.burningDuration,
           id := st.shockwaveIdCounter }]
      shockwaveIdCounter := st.shockwaveIdCounter + 1
      sounds := playSound Sound.shockwave st.sounds }

/-- One of the 12/20 explosion particles spawned at a killed enemy's
position (Game.tsx lines 275-283); `i` is the index of the first of its two
`Math.random()` draws. -/
def killParticle (env : JsEnv) (i : ℕ) (ex ey : ℚ) (isSuper : Bool) : Particle where
  x := ex
  y := ey
  vx := (env.rand i - 1/2) * 12
  vy := (env.rand (i + 1) - 1/2) * 12
  life := 25
  maxLife := 25
  color := if isSuper then Color.yellow else Color.white

/-- The burst of `n` explosion particles of one pulse kill, consuming two
draws per particle starting at draw index `i0`. -/
def killParticles (env : JsEnv) (i0 n : ℕ) (ex ey : ℚ) (isSuper : Bool) : List Particle :=
  (List.range n).map (fun k => killParticle env (i0 + 2 * k) ex ey isSuper)

/-- One of the 20/40 recoil-burst particles emitted at the player's center
after a jump (Game.tsx lines 289-301); `i` is the index of the first of its
three `Math.random()` draws. -/
def burstParticle (env : JsEnv) (i : ℕ) (px py ux uy : ℚ) (isSuper : Bool) : Particle :=
  let pAngle := env.atan2 (-uy) (-ux) + (env.rand i - 1/2) * (3/2)
  let pSpeed := (if isSuper then (5 : ℚ) else 2) + env.rand (i + 1) * 8
  { x := px
    y := py
    vx := env.cos pAngle * pSpeed
    vy := env.sin pAngle * pSpeed
    life := 20 + env.rand (i + 2) * 20
    maxLife := 40
    color := if isSuper then Color.orange else Color.hotPink }

/-- The elimination condition of the pulse pass (Game.tsx lines 264-267):
the enemy's horizontal extent overlaps the pulse band around the player
center `px`, it lies on the affected side of the player center `py`
(below for a normal jump, above for a super jump), and it is not already
dead. -/
def pulseHits (px py pulseWidth : ℚ) (isSuper : Bool) (e : Enemy) : Bool :=
  (decide (e.x + e.radius > px - pulseWidth / 2) &&
   decide (e.x - e.radius < px + pulseWidth / 2)) &&
  (if isSuper then decide (e.y < py) else decide (e.y > py)) &&
  !e.isDead

/-- The body of the `enemiesRef.current.forEach` elimination pass inside
`executeJump` (Game.tsx lines 263-285).  The accumulator carries the state
being mutated and the processed prefix of the enemy list; a hit marks the
enemy dead, refills fuel to max, sets the flash timer, triggers a chained
shockwave at the player's center, plays a `kill` cue and spawns 12 (normal)
or 20 (super) particles at the enemy's position. -/
def jumpKillStep (env : JsEnv) (cfg : GameConfig) (px py pulseWidth : ℚ) (isSuper : Bool)
    (acc : GameSt × List Enemy) (e : Enemy) : GameSt × List Enemy :=
  if pulseHits px py pulseWidth isSuper e then
    let st := acc.1
    let st := { st with player := { st.player with fuel := st.player.maxFuel, flashTimer := 10 } }
    let st := triggerShockwave cfg px py 1 st
    let st := { st with sounds := playSound Sound.kill st.sounds }
    let n : ℕ := if isSuper then 20 else 12
    let st := { st with
      particles := st.particles ++ killParticles env st.randIdx n e.x e.y isSuper
      randIdx := st.randIdx + 2 * n }
    (st, acc.2 ++ [{ e with isDead := true }])
  else
    (acc.1, acc.2 ++ [e])

/-- `executeJump(mouseX, mouseY)` (Game.tsx lines 217-302).  With
insufficient fuel the jump is rejected: only a small camera-shake and a
`pulse` cue happen.  Otherwise the recoil velocity is applied opposite the
unit vector toward the target (a zero distance is replaced by 1, the JS
`|| 1` guard), fuel is debited, a pulse is pushed, the one-shot elimination
pass runs over the enemies, the camera shake is set, and the recoil
particle burst is emitted. -/
def executeJump (env : JsEnv) (K : Consts) (cfg : GameConfig) (mouseX mouseY : ℚ)
    (st : GameSt) : GameSt :=
  if st.player.fuel < cfg.fuelConsumption then
    { st with
      shake := { st.shake with intensity := 5 }
      sounds := playSound Sound.pulse st.sounds }
  else
    let px := st.player.x + st.player.width / 2
    let py := st.player.y + st.player.height / 2
    let dx := mouseX - px
    let dy := mouseY - py
    let dist0 := env.sqrt (dx * dx + dy * dy)
    let dist := if dist0 = 0 then 1 else dist0
    let ux := dx / dist
    let uy := dy / dist
    let deadZoneY := K.GAME_HEIGHT * (1 - cfg.deadZoneThreshold)
    let inDeadZone := cfg.deadJumpEnabled && decide (st.player.y + st.player.height > deadZoneY)
    let force := if inDeadZone then cfg.recoilForce * cfg.superJumpMultiplier else cfg.recoilForce
    let isSuper := inDeadZone
    let st :=
      if inDeadZone then
        { st with
          invincibilityFrames := 15
          shake := { st.shake with intensity := 30 }
          sounds := playSound Sound.deadjump st.sounds }
      else { st with sounds := playSound Sound.jump st.sounds }
    let st := { st with
      player := { st.player with
        vx := -ux * force
        vy := -uy * force
        fuel := st.player.fuel - cfg.fuelConsumption } }
    let pulseWidth := st.player.width + (if isSuper then (30 : ℚ) else 10)
    let st := { st with
      pulses := st.pulses ++
        [({ x := px - pulseWidth / 2, y := py, width := pulseWidth,
            life := if isSuper then 15 else 8, maxLife := if isSuper then 15 else 8,
            isSuper := isSuper } : Pulse)] }
    let loopOut := st.enemies.foldl (jumpKillStep env cfg px py pulseWidth isSuper) (st, [])
    let st := { loopOut.1 with enemies := loopOut.2 }
    let st := if !isSuper then { st with shake := { st.shake with intensity := 15 } } else st
    let nb : ℕ := if isSuper then 40 else 20
    { st with
      particles := st.particles ++
        (List.range nb).map (fun k => burstParticle env (st.randIdx + 3 * k) px py ux uy isSuper)
      randIdx := st.randIdx + 3 * nb }

/-- `handleGlobalInteraction` (Game.tsx lines 304-328), after the boundary
has mapped the pointer event into logical canvas coordinates `(mx, my)`
(the `getBoundingClientRect` scaling and the touch hit-test are boundary
concerns): outside `PLAYING` an interaction in `START` or `GAMEOVER` resets
the game; in `PLAYING` it executes a jump at the target. -/
def handleGlobalInteraction (env : JsEnv) (K : Consts) (cfg : GameConfig) (mx my : ℚ)
    (st : GameSt) : GameSt :=
  if st.gameState ≠ GameState.PLAYING then
    if st.gameState = GameState.START ∨ st.gameState = GameState.GAMEOVER then
      resetGame K cfg st
    else st
  else
    executeJump env K cfg mx my st

/-- JavaScript truncation toward zero (`Math.trunc`, the rounding used by
the JS `%` operator). -/
def jsTrunc (q : ℚ) : ℤ :=
  if q < 0 then ⌈q⌉ else ⌊q⌋

/-- The JavaScript `%` operator (truncated remainder) on rationals. -/
def jsMod (a b : ℚ) : ℚ :=
  a - b * jsTrunc (a / b)

/-- Score accrual and invincibility countdown at the start of a `PLAYING`
tick (Game.tsx lines 346-348): `setScore(Math.floor(elapsed / 60) * 10)`
and decrement `invincibilityFrames` while positive. -/
def tickTimers (st : GameSt) : GameSt :=
  let st := { st with score := ⌊st.elapsedTime / 60⌋ * 10 }
  if st.invincibilityFrames > 0 then
    { st with invincibilityFrames := st.invincibilityFrames - 1 }
  else st

/-- Kinematic part of the player physics (Game.tsx lines 354-359): gravity,
position integration, horizontal drag and flash-timer countdown. -/
def integrateKinematics (K : Consts) (cfg : GameConfig) (p0 : Player) : Player :=
  let p := { p0 with vy := p0.vy + cfg.gravity * 1 }
  let p1 := { p with x := p.x + p.vx * 1, y := p.y + p.vy * 1 }
  let p2 := { p1 with vx := p1.vx * K.AIR_RESISTANCE }
  if p2.flashTimer > 0 then { p2 with flashTimer := p2.flashTimer - 1 } else p2

/-- Left-wall bounce (Game.tsx lines 361-365): clamp, reflect `vx` scaled by
`bounceElasticity`, seed the camera shake from the reflected speed. -/
def bounceLeft (cfg : GameConfig) (ps : Player × Shake) : Player × Shake :=
  if ps.1.x < 0 then
    let p := { ps.1 with x := 0, vx := -ps.1.vx * cfg.bounceElasticity }
    (p, { ps.2 with intensity := |p.vx| * (1/2) })
  else ps

/-- Right-wall bounce (Game.tsx lines 366-370). -/
def bounceRight (K : Consts) (cfg : GameConfig) (ps : Player × Shake) : Player × Shake :=
  if ps.1.x > K.GAME_WIDTH - ps.1.width then
    let p := { ps.1 with x := K.GAME_WIDTH - ps.1.width, vx := -ps.1.vx * cfg.bounceElasticity }
    (p, { ps.2 with intensity := |p.vx| * (1/2) })
  else ps

/-- Fuel regeneration (Game.tsx lines 372-374): `fuelRegen` per tick toward
`maxFuel`, never overshooting. -/
def regenFuel (cfg : GameConfig) (p : Player) : Player :=
  if p.fuel < p.maxFuel then
    { p with fuel := min p.maxFuel (p.fuel + cfg.fuelRegen * 1) }
  else p

/-- Fall-past-bottom transition (Game.tsx lines 376-380). -/
def fallCheck (K : Consts) (st : GameSt) : GameSt :=
  if st.player.y > K.GAME_HEIGHT then
    { st with
      gameState := GameState.GAMEOVER
      shake := { st.shake with intensity := 25 }
      sounds := playSound Sound.shockwave st.sounds }
  else st

/-- Camera-shake randomisation and decay (Game.tsx lines 382-386), consuming
two `Math.random()` draws while the intensity is positive. -/
def shakeTick (env : JsEnv) (st : GameSt) : GameSt :=
  if st.shake.intensity > 0 then
    { st with
      shake :=
        { x := (env.rand st.randIdx - 1/2) * st.shake.intensity
          y := (env.rand (st.randIdx + 1) - 1/2) * st.shake.intensity
          intensity := st.shake.intensity * (9/10) }
      randIdx := st.randIdx + 2 }
  else st

/-- Player physics for one tick (Game.tsx lines 354-386), in source order:
kinematics, wall bounces, fuel regeneration, the fall-past-bottom
`GAMEOVER` transition, and the camera-shake update. -/
def integratePlayer (env : JsEnv) (K : Consts) (cfg : GameConfig) (st : GameSt) : GameSt :=
  let ps := bounceRight K cfg (bounceLeft cfg (integrateKinematics K cfg st.player, st.shake))
  let p := regenFuel cfg ps.1
  shakeTick env (fallCheck K { st with player := p, shake := ps.2 })

/-- Per-tick kinematics of one particle (Game.tsx lines 388-393). -/
def tickParticle (cfg : GameConfig) (p : Particle) : Particle :=
  { p with
    x := p.x + p.vx * 1
    y := p.y + p.vy * 1
    vy := p.vy + cfg.gravity * (3/10) * 1
    life := p.life - 1 * 1 }

/-- Particle integration and pruning (Game.tsx lines 388-394). -/
def integrateParticles (cfg : GameConfig) (st : GameSt) : GameSt :=
  { st with particles := (st.particles.map (tickParticle cfg)).filter (fun p => decide (p.life > 0)) }

/-- Pulse life countdown and pruning (Game.tsx lines 396-399). -/
def tickPulses (st : GameSt) : GameSt :=
  let aged := st.pulses.map (fun s => { s with life := s.life - 1 * 1 })
  { st with pulses := aged.filter (fun s => decide (s.life > 0)) }

/-- The body of the inner `enemiesRef.current.forEach` of the shockwave pass
(Game.tsx lines 409-420): a live enemy within `sw.radius + e.radius` of the
shockwave center is marked dead, a chained shockwave is triggered at the
player's center at 0.8 radius scale, and a `kill` cue plays. -/
def swKillStep (env : JsEnv) (cfg : GameConfig) (pcx pcy : ℚ) (sw : Shockwave)
    (acc : GameSt × List Enemy) (e : Enemy) : GameSt × List Enemy :=
  if e.isDead then (acc.1, acc.2 ++ [e])
  else
    let dx := e.x - sw.x
    let dy := e.y - sw.y
    let dist := env.sqrt (dx * dx + dy * dy)
    if dist < sw.radius + e.radius then
      let st := triggerShockwave cfg pcx pcy (8/10) acc.1
      let st := { st with sounds := playSound Sound.kill st.sounds }
      (st, acc.2 ++ [{ e with isDead := true }])
    else (acc.1, acc.2 ++ [e])

/-- Processing of the shockwave at index `i` of the pre-pass list (the body
of `shockwavesRef.current.forEach`, Game.tsx lines 401-421): re-center on
the player, decrement life, recompute the eased radius
(`Math.sin(progress * Math.PI) * maxRadius`), then run the elimination
sweep over the enemies.  Shockwaves appended during the pass are not
themselves processed this tick (JS `forEach` fixes the range up front). -/
def shockwaveStep (env : JsEnv) (cfg : GameConfig) (pcx pcy : ℚ) (st : GameSt) (i : ℕ) : GameSt :=
  match st.shockwaves[i]? with
  | none => st
  | some sw0 =>
    let sw1 := { sw0 with x := pcx, y := pcy, life := sw0.life - 1 }
    let progress := 1 - sw1.life / sw1.maxLife
    let easedProgress := env.sinpi progress
    let sw := { sw1 with radius := easedProgress * sw1.maxRadius }
    let st := { st with shockwaves := st.shockwaves.set i sw }
    let inner := st.enemies.foldl (swKillStep env cfg pcx pcy sw) (st, [])
    { inner.1 with enemies := inner.2 }

/-- The whole shockwave pass plus the life-based pruning (Game.tsx lines
401-422). -/
def shockwavePass (env : JsEnv) (cfg : GameConfig) (pcx pcy : ℚ) (st : GameSt) : GameSt :=
  let st := (List.range st.shockwaves.length).foldl (shockwaveStep env cfg pcx pcy) st
  { st with shockwaves := st.shockwaves.filter (fun sw => decide (sw.life > 0)) }

/-- Nudge-and-clamp of the uniform spawn X draw (Game.tsx lines 438-441):
`spawnX = draw * (GAME_WIDTH - 40) + 20`; if within 60 of the player's
center it is pushed 60 further out on its side, clamped to
`[20, GAME_WIDTH - 20]`. -/
def spawnXOf (K : Consts) (pcx draw : ℚ) : ℚ :=
  let spawnX := draw * (K.GAME_WIDTH - 40) + 20
  if |spawnX - pcx| < 60 then
    if spawnX < pcx then max 20 (spawnX - 60) else min (K.GAME_WIDTH - 20) (spawnX + 60)
  else spawnX

/-- The SpawnDirector (Game.tsx lines 424-446): sample the piecewise-linear
spawn curve at the 120-second cycle phase, modulate by the slow sine wave,
and spawn at most one enemy this tick.  `List.getD _ 0` stands for JS array
indexing; the spec (section 7) requires `spawnCurve.length ≥ 2`, under
which every index used here is in range. -/
def spawnBlock (env : JsEnv) (K : Consts) (cfg : GameConfig) (pcx : ℚ) (st : GameSt) : GameSt :=
  let seconds := st.elapsedTime / 60
  let waveFactor := 1 + (6/10) * env.sin (seconds * (8/10))
  let cycleDuration : ℚ := 120
  let t := jsMod seconds cycleDuration / cycleDuration
  let points := cfg.spawnCurve
  let n : ℕ := points.length - 1
  let idx : ℕ := (⌊t * (n : ℚ)⌋).toNat
  let nxtIdx : ℕ := min (idx + 1) n
  let localT := jsMod (t * (n : ℚ)) 1
  let curveValue := points.getD idx 0 * (1 - localT) + points.getD nxtIdx 0 * localT
  let finalSpawnRate := (cfg.enemySpawnRate + curveValue * (1/10) * cfg.difficultyScale) * waveFactor
  let finalSpeed := min (3/2 + seconds * (5/100) * cfg.difficultyScale) 8
  if env.rand st.randIdx < finalSpawnRate * 1 then
    { st with
      enemies := st.enemies ++
        [{ id := st.enemyIdCounter, x := spawnXOf K pcx (env.rand (st.randIdx + 1)),
           y := -30, radius := 10 + env.rand (st.randIdx + 2) * 12,
           speed := finalSpeed + env.rand (st.randIdx + 3) * 1, isDead := false }]
      enemyIdCounter := st.enemyIdCounter + 1
      randIdx := st.randIdx + 4 }
  else { st with randIdx := st.randIdx + 1 }

/-- The body of the final `enemiesRef.current.forEach` (Game.tsx lines
448-457): move the enemy down by its speed, then the lethal-contact check —
with no invincibility left, a center distance below
`e.radius + player.width / 2 - 2` transitions to `GAMEOVER`.  Note the check
does not consult `e.isDead`. -/
def contactStep (env : JsEnv) (pcx pcy thr invinc : ℚ)
    (acc : GameSt × List Enemy) (e : Enemy) : GameSt × List Enemy :=
  let e := { e with y := e.y + e.speed * 1 }
  let pdx := e.x - pcx
  let pdy := e.y - pcy
  let pdist := env.sqrt (pdx * pdx + pdy * pdy)
  let st := acc.1
  let st :=
    if invinc ≤ 0 ∧ pdist < e.radius + thr then
      { st with gameState := GameState.GAMEOVER, sounds := playSound Sound.shockwave st.sounds }
    else st
  (st, acc.2 ++ [e])

/-- Enemy movement plus the lethal-contact sweep (Game.tsx lines 448-457). -/
def moveAndContact (env : JsEnv) (pcx pcy : ℚ) (st : GameSt) : GameSt :=
  let thr := st.player.width / 2 - 2
  let out := st.enemies.foldl (contactStep env pcx pcy thr st.invincibilityFrames) (st, [])
  { out.1 with enemies := out.2 }

/-- End-of-tick enemy pruning (Game.tsx line 459): drop dead enemies and
enemies fallen 50 units past the bottom boundary. -/
def pruneEnemies (K : Consts) (st : GameSt) : GameSt :=
  let keep := st.enemies.filter (fun e => !e.isDead && decide (e.y < K.GAME_HEIGHT + 50))
  { st with enemies := keep }

/-- One simulation tick, `update` (Game.tsx lines 339-468): the elapsed-tick
counter always advances; everything else runs only in `PLAYING`, in source
order — timers, player physics, particle/pulse integration, the shockwave
pass, the spawn director, enemy movement with the lethal-contact sweep, and
enemy pruning.  `playerCenterX`/`playerCenterY` are captured before the
physics integration, exactly as in the source (lines 350-352). -/
def update (env : JsEnv) (K : Consts) (cfg : GameConfig) (st : GameSt) : GameSt :=
  let st := { st with elapsedTime := st.elapsedTime + 1 }
  if st.gameState ≠ GameState.PLAYING then st
  else
    let st := tickTimers st
    let pcx := st.player.x + st.player.width / 2
    let pcy := st.player.y + st.player.height / 2
    let st := integratePlayer env K cfg st
    let st := integrateParticles cfg st
    let st := tickPulses st
    let st := shockwavePass env cfg pcx pcy st
    let st := spawnBlock env K cfg pcx st
    let st := moveAndContact env pcx pcy st
    pruneEnemies K st

/-- `n`-fold iteration of `update` with one fixed oracle (the oracle's
`rand` stream is indexed by the state's `randIdx`, so a single `JsEnv`
determines a whole run). -/
def updateN (env : JsEnv) (K : Consts) (cfg : GameConfig) (n : ℕ) (st : GameSt) : GameSt :=
  (update env K cfg)^[n] st

/-! ### Concrete fixtures for witnesses and counterexamples -/

/-- Concrete constants instance (the spec fixes only the roles of these
values, see `Consts`): a 450 x 750 logical canvas, 100 max fuel, 0.85
horizontal damping. -/
def K0 : Consts where
  GAME_WIDTH := 450
  GAME_HEIGHT := 750
  MAX_FUEL := 100
  AIR_RESISTANCE := 17/20

/-- The default configuration of `App.tsx` (lines 130-161), restricted to
the simulation fields. -/
def cfg0 : GameConfig where
  gravity := 4/25
  recoilForce := 6
  fuelRegen := 1/10
  fuelConsumption := 12
  enemySpawnRate := 1/100
  bounceElasticity := 6/5
  difficultyScale := 1/2
  deadZoneThreshold := 3/20
  superJumpMultiplier := 3
  spawnCurve := [1/10, 1/5, 3/10, 2/5, 1/2]
  deadJumpEnabled := false
  burningEnabled := true
  burningRadius := 80
  burningDuration := 44
  playerSize := 20
  audioEnabled := true
  bgmVolume := 1/20
  sfxVolume := 1/25

/-- A trivial oracle for instantiations in which the transcendental values
are irrelevant. -/
def env0 : JsEnv where
  sqrt := fun _ => 0
  sin := fun _ => 0
  cos := fun _ => 0
  atan2 := fun _ _ => 0
  sinpi := fun _ => 0
  rand := fun _ => 1/2

/-! ### Generic fold machinery and component lemmas -/

/-- A property preserved by every step of a fold holds of the fold. -/
theorem foldl_preserve {α β : Type _} {P : β → Prop} (f : β → α → β)
    (h : ∀ b a, P b → P (f b a)) :
    ∀ (l : List α) (b : β), P b → P (l.foldl f b) := by
  intro l
  induction l with
  | nil => exact fun b hb => hb
  | cons a l ih => exact fun b hb => ih _ (h _ _ hb)

theorem triggerShockwave_player (cfg : GameConfig) (x y r : ℚ) (st : GameSt) :
    (triggerShockwave cfg x y r st).player = st.player := by
  unfold triggerShockwave; split <;> rfl

theorem triggerShockwave_enemies (cfg : GameConfig) (x y r : ℚ) (st : GameSt) :
    (triggerShockwave cfg x y r st).enemies = st.enemies := by
  unfold triggerShockwave; split <;> rfl

theorem triggerShockwave_pulses (cfg : GameConfig) (x y r : ℚ) (st : GameSt) :
    (triggerShockwave cfg x y r st).pulses = st.pulses := by
  unfold triggerShockwave; split <;> rfl

theorem triggerShockwave_particles (cfg : GameConfig) (x y r : ℚ) (st : GameSt) :
    (triggerShockwave cfg x y r st).particles = st.particles := by
  unfold triggerShockwave; split <;> rfl

theorem triggerShockwave_score (cfg : GameConfig) (x y r : ℚ) (st : GameSt) :
    (triggerShockwave cfg x y r st).score = st.score := by
  unfold triggerShockwave; split <;> rfl

theorem triggerShockwave_elapsedTime (cfg : GameConfig) (x y r : ℚ) (st : GameSt) :
    (triggerShockwave cfg x y r st).elapsedTime = st.elapsedTime := by
  unfold triggerShockwave; split <;> rfl

theorem triggerShockwave_gameState (cfg : GameConfig) (x y r : ℚ) (st : GameSt) :
    (triggerShockwave cfg x y r st).gameState = st.gameState := by
  unfold triggerShockwave; split <;> rfl

theorem triggerShockwave_invincibilityFrames (cfg : GameConfig) (x y r : ℚ) (st : GameSt) :
    (triggerShockwave cfg x y r st).invincibilityFrames = st.invincibilityFrames := by
  unfold triggerShockwave; split <;> rfl

theorem triggerShockwave_shake (cfg : GameConfig) (x y r : ℚ) (st : GameSt) :
    (triggerShockwave cfg x y r st).shake = st.shake := by
  unfold triggerShockwave; split <;> rfl

theorem triggerShockwave_randIdx (cfg : GameConfig) (x y r : ℚ) (st : GameSt) :
    (triggerShockwave cfg x y r st).randIdx = st.randIdx := by
  unfold triggerShockwave; split <;> rfl

theorem triggerShockwave_enemyIdCounter (cfg : GameConfig) (x y r : ℚ) (st : GameSt) :
    (triggerShockwave cfg x y r st).enemyIdCounter = st.enemyIdCounter := by
  unfold triggerShockwave; split <;> rfl

/-- With burning disabled, `triggerShockwave` is the identity. -/
theorem triggerShockwave_off (cfg : GameConfig) (x y r : ℚ) (st : GameSt)
    (h : cfg.burningEnabled = false) :
    triggerShockwave cfg x y r st = st := by
  simp [triggerShockwave, h]

/-- With burning enabled, `triggerShockwave` appends exactly the documented
shockwave. -/
theorem triggerShockwave_on (cfg : GameConfig) (x y r : ℚ) (st : GameSt)
    (h : cfg.burningEnabled = true) :
    (triggerShockwave cfg x y r st).shockwaves = st.shockwaves ++
      [{ x := x, y := y, radius := 0, maxRadius := cfg.burningRadius * r,
         life := cfg.burningDuration, maxLife := cfg.burningDuration,
         id := st.shockwaveIdCounter }] ∧
    (triggerShockwave cfg x y r st).shockwaveIdCounter = st.shockwaveIdCounter + 1 := by
  simp [triggerShockwave, h]

/-! ### Characterisation of the pulse elimination pass -/

theorem jumpKillStep_fst_player (env : JsEnv) (cfg : GameConfig) (px py pw : ℚ) (s : Bool)
    (acc : GameSt × List Enemy) (e : Enemy) :
    (jumpKillStep env cfg px py pw s acc e).1.player
      = if pulseHits px py pw s e
        then { acc.1.player with fuel := acc.1.player.maxFuel, flashTimer := 10 }
        else acc.1.player := by
  unfold jumpKillStep
  split
  · rename_i h
    simp only [if_pos h, triggerShockwave_player]
  · rename_i h
    simp only [if_neg h]

theorem jumpKillStep_fst_unchanged (env : JsEnv) (cfg : GameConfig) (px py pw : ℚ) (s : Bool)
    (acc : GameSt × List Enemy) (e : Enemy) :
    (jumpKillStep env cfg px py pw s acc e).1.player.vx = acc.1.player.vx ∧
    (jumpKillStep env cfg px py pw s acc e).1.player.vy = acc.1.player.vy ∧
    (jumpKillStep env cfg px py pw s acc e).1.player.x = acc.1.player.x ∧
    (jumpKillStep env cfg px py pw s acc e).1.player.y = acc.1.player.y ∧
    (jumpKillStep env cfg px py pw s acc e).1.player.maxFuel = acc.1.player.maxFuel ∧
    (jumpKillStep env cfg px py pw s acc e).1.pulses = acc.1.pulses ∧
    (jumpKillStep env cfg px py pw s acc e).1.score = acc.1.score ∧
    (jumpKillStep env cfg px py pw s acc e).1.elapsedTime = acc.1.elapsedTime ∧
    (jumpKillStep env cfg px py pw s acc e).1.gameState = acc.1.gameState ∧
    (jumpKillStep env cfg px py pw s acc e).1.invincibilityFrames = acc.1.invincibilityFrames ∧
    (jumpKillStep env cfg px py pw s acc e).1.shake = acc.1.shake ∧
    (jumpKillStep env cfg px py pw s acc e).1.enemyIdCounter = acc.1.enemyIdCounter := by
  unfold jumpKillStep
  split
  · simp [triggerShockwave_player, triggerShockwave_pulses, triggerShockwave_score,
      triggerShockwave_elapsedTime, triggerShockwave_gameState,
      triggerShockwave_invincibilityFrames, triggerShockwave_shake,
      triggerShockwave_enemyIdCounter]
  · simp

theorem jumpKillStep_fst_particles_mono (env : JsEnv) (cfg : GameConfig) (px py pw : ℚ)
    (s : Bool) (acc : GameSt × List Enemy) (e : Enemy) :
    acc.1.particles.length ≤ (jumpKillStep env cfg px py pw s acc e).1.particles.length := by
  unfold jumpKillStep
  split
  · simp [triggerShockwave_particles]
  · simp

theorem jumpKillStep_fst_shockwaves_off (env : JsEnv) (cfg : GameConfig) (px py pw : ℚ)
    (s : Bool) (acc : GameSt × List Enemy) (e : Enemy) (hb : cfg.burningEnabled = false) :
    (jumpKillStep env cfg px py pw s acc e).1.shockwaves = acc.1.shockwaves ∧
    (jumpKillStep env cfg px py pw s acc e).1.shockwaveIdCounter = acc.1.shockwaveIdCounter := by
  unfold jumpKillStep
  split
  · simp [triggerShockwave_off cfg px py 1 _ hb]
  · simp

/-- The pulse pass reproduces the enemy list, marking exactly the hit
enemies dead. -/
theorem jumpLoop_snd (env : JsEnv) (cfg : GameConfig) (px py pw : ℚ) (s : Bool) :
    ∀ (es : List Enemy) (st : GameSt) (acc : List Enemy),
      (es.foldl (jumpKillStep env cfg px py pw s) (st, acc)).2
        = acc ++ es.map (fun e => if pulseHits px py pw s e then { e with isDead := true } else e) := by
  intro es
  induction es with
  | nil => intro st acc; simp
  | cons e es ih =>
    intro st acc
    rw [List.foldl_cons, ← Prod.mk.eta (p := jumpKillStep env cfg px py pw s (st, acc) e), ih]
    unfold jumpKillStep
    split
    · rename_i h
      simp [h]
    · rename_i h
      simp [h]

/-- Fuel after the pulse pass: refilled to max when at least one enemy is
hit, untouched otherwise. -/
theorem jumpLoop_fuel (env : JsEnv) (cfg : GameConfig) (px py pw : ℚ) (s : Bool) :
    ∀ (es : List Enemy) (st : GameSt) (acc : List Enemy),
      ((es.foldl (jumpKillStep env cfg px py pw s) (st, acc)).1).player.fuel
        = if es.any (fun e => pulseHits px py pw s e)
          then st.player.maxFuel else st.player.fuel := by
  intro es
  induction es with
  | nil => intro st acc; simp
  | cons e es ih =>
    intro st acc
    rw [List.foldl_cons, ← Prod.mk.eta (p := jumpKillStep env cfg px py pw s (st, acc) e), ih]
    have hmax := (jumpKillStep_fst_unchanged env cfg px py pw s (st, acc) e).2.2.2.2.1
    have hp := jumpKillStep_fst_player env cfg px py pw s (st, acc) e
    by_cases h : pulseHits px py pw s e
    · rw [hmax]
      have hf : (jumpKillStep env cfg px py pw s (st, acc) e).1.player.fuel
          = st.player.maxFuel := by rw [hp, if_pos h]
      simp [h, hf]
    · have hf : (jumpKillStep env cfg px py pw s (st, acc) e).1.player.fuel
          = st.player.fuel := by rw [hp, if_neg h]
      simp [h, hmax, hf]

/-- The dead-zone test of `executeJump` (Game.tsx lines 233-234), in terms
of the pre-jump player. -/
def inDeadZoneOf (K : Consts) (cfg : GameConfig) (p : Player) : Bool :=
  cfg.deadJumpEnabled && decide (p.y + p.height > K.GAME_HEIGHT * (1 - cfg.deadZoneThreshold))

/-- The pulse width of a jump (Game.tsx line 253). -/
def pulseWidthOf (p : Player) (s : Bool) : ℚ :=
  p.width + (if s then (30 : ℚ) else 10)

/-- Enemy list after a funded jump: exactly the hit enemies are marked
dead. -/
theorem executeJump_enemies (env : JsEnv) (K : Consts) (cfg : GameConfig) (mx my : ℚ)
    (st : GameSt) (h : ¬ st.player.fuel < cfg.fuelConsumption) :
    (executeJump env K cfg mx my st).enemies
      = st.enemies.map (fun e =>
          if pulseHits (st.player.x + st.player.width / 2) (st.player.y + st.player.height / 2)
              (pulseWidthOf st.player (inDeadZoneOf K cfg st.player))
              (inDeadZoneOf K cfg st.player) e
          then { e with isDead := true } else e) := by
  unfold executeJump
  rw [if_neg h]
  by_cases hdz : (cfg.deadJumpEnabled
      && decide (st.player.y + st.player.height > K.GAME_HEIGHT * (1 - cfg.deadZoneThreshold))) = true
  · simp [hdz, jumpLoop_snd, inDeadZoneOf, pulseWidthOf]
  · simp only [Bool.not_eq_true] at hdz
    simp [hdz, jumpLoop_snd, inDeadZoneOf, pulseWidthOf]

theorem jumpLoop_maxFuel (env : JsEnv) (cfg : GameConfig) (px py pw : ℚ) (s : Bool)
    (es : List Enemy) (st : GameSt) (acc : List Enemy) :
    ((es.foldl (jumpKillStep env cfg px py pw s) (st, acc)).1).player.maxFuel
      = st.player.maxFuel :=
  foldl_preserve (P := fun b => b.1.player.maxFuel = st.player.maxFuel) _
    (fun b a hb => ((jumpKillStep_fst_unchanged env cfg px py pw s b a).2.2.2.2.1).trans hb)
    es (st, acc) rfl

theorem jumpLoop_vx (env : JsEnv) (cfg : GameConfig) (px py pw : ℚ) (s : Bool)
    (es : List Enemy) (st : GameSt) (acc : List Enemy) :
    ((es.foldl (jumpKillStep env cfg px py pw s) (st, acc)).1).player.vx = st.player.vx :=
  foldl_preserve (P := fun b => b.1.player.vx = st.player.vx) _
    (fun b a hb => ((jumpKillStep_fst_unchanged env cfg px py pw s b a).1).trans hb)
    es (st, acc) rfl

theorem jumpLoop_vy (env : JsEnv) (cfg : GameConfig) (px py pw : ℚ) (s : Bool)
    (es : List Enemy) (st : GameSt) (acc : List Enemy) :
    ((es.foldl (jumpKillStep env cfg px py pw s) (st, acc)).1).player.vy = st.player.vy :=
  foldl_preserve (P := fun b => b.1.player.vy = st.player.vy) _
    (fun b a hb => ((jumpKillStep_fst_unchanged env cfg px py pw s b a).2.1).trans hb)
    es (st, acc) rfl

theorem jumpLoop_pulses (env : JsEnv) (cfg : GameConfig) (px py pw : ℚ) (s : Bool)
    (es : List Enemy) (st : GameSt) (acc : List Enemy) :
    ((es.foldl (jumpKillStep env cfg px py pw s) (st, acc)).1).pulses = st.pulses :=
  foldl_preserve (P := fun b => b.1.pulses = st.pulses) _
    (fun b a hb => ((jumpKillStep_fst_unchanged env cfg px py pw s b a).2.2.2.2.2.1).trans hb)
    es (st, acc) rfl

theorem jumpLoop_score (env : JsEnv) (cfg : GameConfig) (px py pw : ℚ) (s : Bool)
    (es : List Enemy) (st : GameSt) (acc : List Enemy) :
    ((es.foldl (jumpKillStep env cfg px py pw s) (st, acc)).1).score = st.score :=
  foldl_preserve (P := fun b => b.1.score = st.score) _
    (fun b a hb => ((jumpKillStep_fst_unchanged env cfg px py pw s b a).2.2.2.2.2.2.1).trans hb)
    es (st, acc) rfl

theorem jumpLoop_elapsedTime (env : JsEnv) (cfg : GameConfig) (px py pw : ℚ) (s : Bool)
    (es : List Enemy) (st : GameSt) (acc : List Enemy) :
    ((es.foldl (jumpKillStep env cfg px py pw s) (st, acc)).1).elapsedTime = st.elapsedTime :=
  foldl_preserve (P := fun b => b.1.elapsedTime = st.elapsedTime) _
    (fun b a hb => ((jumpKillStep_fst_unchanged env cfg px py pw s b a).2.2.2.2.2.2.2.1).trans hb)
    es (st, acc) rfl

theorem jumpLoop_gameState (env : JsEnv) (cfg : GameConfig) (px py pw : ℚ) (s : Bool)
    (es : List Enemy) (st : GameSt) (acc : List Enemy) :
    ((es.foldl (jumpKillStep env cfg px py pw s) (st, acc)).1).gameState = st.gameState :=
  foldl_preserve (P := fun b => b.1.gameState = st.gameState) _
    (fun b a hb => ((jumpKillStep_fst_unchanged env cfg px py pw s b a).2.2.2.2.2.2.2.2.1).trans hb)
    es (st, acc) rfl

theorem jumpLoop_particles_mono (env : JsEnv) (cfg : GameConfig) (px py pw : ℚ) (s : Bool)
    (es : List Enemy) (st : GameSt) (acc : List Enemy) :
    st.particles.length ≤ ((es.foldl (jumpKillStep env cfg px py pw s) (st, acc)).1).particles.length :=
  foldl_preserve (P := fun b => st.particles.length ≤ b.1.particles.length) _
    (fun b a hb => hb.trans (jumpKillStep_fst_particles_mono env cfg px py pw s b a))
    es (st, acc) le_rfl

theorem jumpLoop_shockwaves_off (env : JsEnv) (cfg : GameConfig) (px py pw : ℚ) (s : Bool)
    (es : List Enemy) (st : GameSt) (acc : List Enemy) (hb : cfg.burningEnabled = false) :
    ((es.foldl (jumpKillStep env cfg px py pw s) (st, acc)).1).shockwaves = st.shockwaves ∧
    ((es.foldl (jumpKillStep env cfg px py pw s) (st, acc)).1).shockwaveIdCounter
      = st.shockwaveIdCounter :=
  foldl_preserve
    (P := fun b => b.1.shockwaves = st.shockwaves ∧ b.1.shockwaveIdCounter = st.shockwaveIdCounter) _
    (fun b a hp =>
      ⟨((jumpKillStep_fst_shockwaves_off env cfg px py pw s b a hb).1).trans hp.1,
       ((jumpKillStep_fst_shockwaves_off env cfg px py pw s b a hb).2).trans hp.2⟩)
    es (st, acc) ⟨rfl, rfl⟩

/-- Fuel after a funded jump: debited by `fuelConsumption`, unless the
pulse pass eliminates at least one enemy, in which case it is refilled to
`maxFuel` (the kill branch overwrites the debit, Game.tsx lines 251 and
269). -/
theorem executeJump_fuel (env : JsEnv) (K : Consts) (cfg : GameConfig) (mx my : ℚ)
    (st : GameSt) (h : ¬ st.player.fuel < cfg.fuelConsumption) :
    (executeJump env K cfg mx my st).player.fuel
      = if st.enemies.any (fun e =>
            pulseHits (st.player.x + st.player.width / 2) (st.player.y + st.player.height / 2)
              (pulseWidthOf st.player (inDeadZoneOf K cfg st.player))
              (inDeadZoneOf K cfg st.player) e)
        then st.player.maxFuel
        else st.player.fuel - cfg.fuelConsumption := by
  unfold executeJump
  rw [if_neg h]
  by_cases hdz : (cfg.deadJumpEnabled
      && decide (st.player.y + st.player.height > K.GAME_HEIGHT * (1 - cfg.deadZoneThreshold))) = true
  · simp [hdz, jumpLoop_fuel, inDeadZoneOf, pulseWidthOf]
  · simp only [Bool.not_eq_true] at hdz
    simp [hdz, jumpLoop_fuel, inDeadZoneOf, pulseWidthOf]

theorem executeJump_maxFuel (env : JsEnv) (K : Consts) (cfg : GameConfig) (mx my : ℚ)
    (st : GameSt) (h : ¬ st.player.fuel < cfg.fuelConsumption) :
    (executeJump env K cfg mx my st).player.maxFuel = st.player.maxFuel := by
  unfold executeJump
  rw [if_neg h]
  by_cases hdz : (cfg.deadJumpEnabled
      && decide (st.player.y + st.player.height > K.GAME_HEIGHT * (1 - cfg.deadZoneThreshold))) = true
  · simp [hdz, jumpLoop_maxFuel]
  · simp only [Bool.not_eq_true] at hdz
    simp [hdz, jumpLoop_maxFuel]

theorem executeJump_score (env : JsEnv) (K : Consts) (cfg : GameConfig) (mx my : ℚ)
    (st : GameSt) :
    (executeJump env K cfg mx my st).score = st.score := by
  unfold executeJump
  by_cases h : st.player.fuel < cfg.fuelConsumption
  · rw [if_pos h]
  · rw [if_neg h]
    by_cases hdz : (cfg.deadJumpEnabled
        && decide (st.player.y + st.player.height > K.GAME_HEIGHT * (1 - cfg.deadZoneThreshold))) = true
    · simp [hdz, jumpLoop_score]
    · simp only [Bool.not_eq_true] at hdz
      simp [hdz, jumpLoop_score]

theorem executeJump_elapsedTime (env : JsEnv) (K : Consts) (cfg : GameConfig) (mx my : ℚ)
    (st : GameSt) :
    (executeJump env K cfg mx my st).elapsedTime = st.elapsedTime := by
  unfold executeJump
  by_cases h : st.player.fuel < cfg.fuelConsumption
  · rw [if_pos h]
  · rw [if_neg h]
    by_cases hdz : (cfg.deadJumpEnabled
        && decide (st.player.y + st.player.height > K.GAME_HEIGHT * (1 - cfg.deadZoneThreshold))) = true
    · simp [hdz, jumpLoop_elapsedTime]
    · simp only [Bool.not_eq_true] at hdz
      simp [hdz, jumpLoop_elapsedTime]

theorem executeJump_gameState (env : JsEnv) (K : Consts) (cfg : GameConfig) (mx my : ℚ)
    (st : GameSt) :
    (executeJump env K cfg mx my st).gameState = st.gameState := by
  unfold executeJump
  by_cases h : st.player.fuel < cfg.fuelConsumption
  · rw [if_pos h]
  · rw [if_neg h]
    by_cases hdz : (cfg.deadJumpEnabled
        && decide (st.player.y + st.player.height > K.GAME_HEIGHT * (1 - cfg.deadZoneThreshold))) = true
    · simp [hdz, jumpLoop_gameState]
    · simp only [Bool.not_eq_true] at hdz
      simp [hdz, jumpLoop_gameState]

/-- With burning disabled, a jump creates no shockwave. -/
theorem executeJump_shockwaves_off (env : JsEnv) (K : Consts) (cfg : GameConfig) (mx my : ℚ)
    (st : GameSt) (hb : cfg.burningEnabled = false) :
    (executeJump env K cfg mx my st).shockwaves = st.shockwaves ∧
    (executeJump env K cfg mx my st).shockwaveIdCounter = st.shockwaveIdCounter := by
  unfold executeJump
  by_cases h : st.player.fuel < cfg.fuelConsumption
  · rw [if_pos h]
    exact ⟨rfl, rfl⟩
  · rw [if_neg h]
    by_cases hdz : (cfg.deadJumpEnabled
        && decide (st.player.y + st.player.height > K.GAME_HEIGHT * (1 - cfg.deadZoneThreshold))) = true
    · constructor <;> simp [hdz, jumpLoop_shockwaves_off _ _ _ _ _ _ _ _ _ hb]
    · simp only [Bool.not_eq_true] at hdz
      constructor <;> simp [hdz, jumpLoop_shockwaves_off _ _ _ _ _ _ _ _ _ hb]

/-! ### Claims C1 and C2: jump fuel accounting and jump rejection -/

/-- The state produced by a reset from the freshly mounted component. -/
def rst0 : GameSt := resetGame K0 cfg0 (initState K0 cfg0)

/-- A reset state with one live enemy inside the pulse band below the
player (player center is `(225, 285)` with `K0`/`cfg0`). -/
def c1st : GameSt :=
  { rst0 with enemies := [{ id := 0, x := 225, y := 400, radius := 10, speed := 2, isDead := false }] }

/-- Oracle whose `sqrt` is exact at the only queried point of the `c1st`
jump: the target `(225, 0)` lies straight above the player center at
distance 285 (`285^2 = 81225`). -/
def c1env : JsEnv := { env0 with sqrt := fun q => if q = 81225 then 285 else 0 }

set_option maxRecDepth 8000 in
attribute [local semireducible] Rat.add Rat.sub Rat.mul Rat.inv in
/-- C1 counterexample: a funded jump (fuel 100 ≥ fuelConsumption 12) whose
pulse eliminates an enemy leaves fuel at `maxFuel = 100`, not at
`fuel - fuelConsumption = 88`, refuting the claim as stated. -/
theorem C1_counterexample :
    cfg0.fuelConsumption ≤ c1st.player.fuel ∧
    (executeJump c1env K0 cfg0 225 0 c1st).player.fuel = 100 ∧
    c1st.player.fuel - cfg0.fuelConsumption = 88 := by
  decide

/-- C1 (amended): a call of `executeJump` with
`player.fuel ≥ fuelConsumption` leaves the player's fuel at exactly its
previous value minus `fuelConsumption`, unless the jump's pulse pass
eliminates at least one enemy, in which case the per-kill refill leaves
fuel at exactly `maxFuel`. -/
theorem C1_jump_fuel_accounting (env : JsEnv) (K : Consts) (cfg : GameConfig) (mx my : ℚ)
    (st : GameSt) (h : cfg.fuelConsumption ≤ st.player.fuel) :
    (executeJump env K cfg mx my st).player.fuel
      = if st.enemies.any (fun e =>
            pulseHits (st.player.x + st.player.width / 2) (st.player.y + st.player.height / 2)
              (pulseWidthOf st.player (inDeadZoneOf K cfg st.player))
              (inDeadZoneOf K cfg st.player) e)
        then st.player.maxFuel
        else st.player.fuel - cfg.fuelConsumption :=
  executeJump_fuel env K cfg mx my st (not_lt.mpr h)

set_option maxRecDepth 8000 in
attribute [local semireducible] Rat.add Rat.sub Rat.mul Rat.inv in
/-- C1 witness: at the concrete reset state (no enemies), the funded jump
debits exactly `fuelConsumption`. -/
theorem C1_witness :
    cfg0.fuelConsumption ≤ rst0.player.fuel ∧
    (executeJump env0 K0 cfg0 0 0 rst0).player.fuel
      = rst0.player.fuel - cfg0.fuelConsumption := by
  refine ⟨by decide, ?_⟩
  have h := C1_jump_fuel_accounting env0 K0 cfg0 0 0 rst0 (by decide)
  rw [h]
  decide

/-- C2: a jump attempted with `fuel < fuelConsumption` is rejected — the
player (fuel, position, velocity), the enemies, particles, pulses and
shockwaves are all unchanged; only the camera-shake intensity is set to 5
and a `pulse` cue is played. -/
theorem C2_jump_rejected (env : JsEnv) (K : Consts) (cfg : GameConfig) (mx my : ℚ)
    (st : GameSt) (h : st.player.fuel < cfg.fuelConsumption) :
    (executeJump env K cfg mx my st).player = st.player ∧
    (executeJump env K cfg mx my st).enemies = st.enemies ∧
    (executeJump env K cfg mx my st).particles = st.particles ∧
    (executeJump env K cfg mx my st).pulses = st.pulses ∧
    (executeJump env K cfg mx my st).shockwaves = st.shockwaves ∧
    (executeJump env K cfg mx my st).shake.x = st.shake.x ∧
    (executeJump env K cfg mx my st).shake.y = st.shake.y ∧
    (executeJump env K cfg mx my st).shake.intensity = 5 ∧
    (executeJump env K cfg mx my st).sounds = playSound Sound.pulse st.sounds := by
  unfold executeJump
  rw [if_pos h]
  exact ⟨rfl, rfl, rfl, rfl, rfl, rfl, rfl, rfl, rfl⟩

/-- A reset state drained to 5 fuel (below `cfg0.fuelConsumption = 12`). -/
def c2st : GameSt := { rst0 with player := { rst0.player with fuel := 5 } }

set_option maxRecDepth 8000 in
attribute [local semireducible] Rat.add Rat.sub Rat.mul Rat.inv in
/-- C2 witness: the low-fuel jump at a concrete state changes nothing but
the shake and the cue log. -/
theorem C2_witness :
    c2st.player.fuel < cfg0.fuelConsumption ∧
    (executeJump env0 K0 cfg0 100 200 c2st).player = c2st.player ∧
    (executeJump env0 K0 cfg0 100 200 c2st).enemies = c2st.enemies ∧
    (executeJump env0 K0 cfg0 100 200 c2st).shake.intensity = 5 :=
  have h := C2_jump_rejected env0 K0 cfg0 100 200 c2st (by decide)
  ⟨by decide, h.1, h.2.1, h.2.2.2.2.2.2.2.1⟩

/-! ### Claim C6: dead-zone kill-direction inversion -/

/-- C6: in the one-shot pulse elimination pass of a funded jump, an enemy
that was alive before and is dead after must horizontally overlap the pulse
band, and must lie strictly below the player's center (`y` greater) for a
normal jump, strictly above (`y` smaller) for a super jump (dead zone with
`deadJumpEnabled`). -/
theorem C6_kill_direction (env : JsEnv) (K : Consts) (cfg : GameConfig) (mx my : ℚ)
    (st : GameSt) (h : cfg.fuelConsumption ≤ st.player.fuel) :
    List.Forall₂ (fun e e' : Enemy =>
        e'.isDead = true →
          e.isDead = true ∨
            ((st.player.x + st.player.width / 2
                  - pulseWidthOf st.player (inDeadZoneOf K cfg st.player) / 2
                < e.x + e.radius ∧
              e.x - e.radius
                < st.player.x + st.player.width / 2
                  + pulseWidthOf st.player (inDeadZoneOf K cfg st.player) / 2) ∧
             (if inDeadZoneOf K cfg st.player
              then e.y < st.player.y + st.player.height / 2
              else st.player.y + st.player.height / 2 < e.y)))
      st.enemies (executeJump env K cfg mx my st).enemies := by
  rw [executeJump_enemies env K cfg mx my st (not_lt.mpr h)]
  rw [List.forall₂_map_right_iff, List.forall₂_same]
  intro e _
  by_cases hp : pulseHits (st.player.x + st.player.width / 2)
      (st.player.y + st.player.height / 2)
      (pulseWidthOf st.player (inDeadZoneOf K cfg st.player))
      (inDeadZoneOf K cfg st.player) e = true
  · rw [if_pos hp]
    intro _
    right
    cases hdz : inDeadZoneOf K cfg st.player with
    | true =>
      simp only [pulseHits, hdz] at hp
      simp only [hdz, if_true]
      simp only [Bool.and_eq_true, decide_eq_true_eq, Bool.not_eq_true', gt_iff_lt,
        eq_self_iff_true, if_true] at hp
      tauto
    | false =>
      simp only [pulseHits, hdz] at hp
      simp only [hdz, Bool.false_eq_true, if_false]
      simp only [Bool.and_eq_true, decide_eq_true_eq, Bool.not_eq_true', gt_iff_lt,
        Bool.false_eq_true, if_false] at hp
      tauto
  · rw [if_neg hp]
    intro hd
    exact Or.inl hd

set_option maxRecDepth 8000 in
attribute [local semireducible] Rat.add Rat.sub Rat.mul Rat.inv in
/-- C6 witness: the concrete funded jump of `c1st` (enemy below the player,
inside the band) satisfies the direction discipline. -/
theorem C6_witness :
    List.Forall₂ (fun e e' : Enemy =>
        e'.isDead = true →
          e.isDead = true ∨
            ((c1st.player.x + c1st.player.width / 2
                  - pulseWidthOf c1st.player (inDeadZoneOf K0 cfg0 c1st.player) / 2
                < e.x + e.radius ∧
              e.x - e.radius
                < c1st.player.x + c1st.player.width / 2
                  + pulseWidthOf c1st.player (inDeadZoneOf K0 cfg0 c1st.player) / 2) ∧
             (if inDeadZoneOf K0 cfg0 c1st.player
              then e.y < c1st.player.y + c1st.player.height / 2
              else c1st.player.y + c1st.player.height / 2 < e.y)))
      c1st.enemies (executeJump c1env K0 cfg0 225 0 c1st).enemies :=
  C6_kill_direction c1env K0 cfg0 225 0 c1st (by decide)

/-! ### Frame lemmas for the tick stages -/

theorem tickTimers_frame (st : GameSt) :
    (tickTimers st).score = ⌊st.elapsedTime / 60⌋ * 10 ∧
    (tickTimers st).player = st.player ∧
    (tickTimers st).elapsedTime = st.elapsedTime ∧
    (tickTimers st).gameState = st.gameState ∧
    (tickTimers st).shockwaves = st.shockwaves ∧
    (tickTimers st).shockwaveIdCounter = st.shockwaveIdCounter := by
  simp only [tickTimers]
  split <;> exact ⟨rfl, rfl, rfl, rfl, rfl, rfl⟩

theorem integrateParticles_frame (cfg : GameConfig) (st : GameSt) :
    (integrateParticles cfg st).score = st.score ∧
    (integrateParticles cfg st).player = st.player ∧
    (integrateParticles cfg st).elapsedTime = st.elapsedTime ∧
    (integrateParticles cfg st).gameState = st.gameState ∧
    (integrateParticles cfg st).shockwaves = st.shockwaves ∧
    (integrateParticles cfg st).shockwaveIdCounter = st.shockwaveIdCounter ∧
    (integrateParticles cfg st).enemies = st.enemies ∧
    (integrateParticles cfg st).invincibilityFrames = st.invincibilityFrames :=
  ⟨rfl, rfl, rfl, rfl, rfl, rfl, rfl, rfl⟩

theorem tickPulses_frame (st : GameSt) :
    (tickPulses st).score = st.score ∧
    (tickPulses st).player = st.player ∧
    (tickPulses st).elapsedTime = st.elapsedTime ∧
    (tickPulses st).gameState = st.gameState ∧
    (tickPulses st).shockwaves = st.shockwaves ∧
    (tickPulses st).shockwaveIdCounter = st.shockwaveIdCounter ∧
    (tickPulses st).enemies = st.enemies ∧
    (tickPulses st).invincibilityFrames = st.invincibilityFrames :=
  ⟨rfl, rfl, rfl, rfl, rfl, rfl, rfl, rfl⟩

theorem spawnBlock_frame (env : JsEnv) (K : Consts) (cfg : GameConfig) (pcx : ℚ) (st : GameSt) :
    (spawnBlock env K cfg pcx st).score = st.score ∧
    (spawnBlock env K cfg pcx st).player = st.player ∧
    (spawnBlock env K cfg pcx st).elapsedTime = st.elapsedTime ∧
    (spawnBlock env K cfg pcx st).gameState = st.gameState ∧
    (spawnBlock env K cfg pcx st).shockwaves = st.shockwaves ∧
    (spawnBlock env K cfg pcx st).shockwaveIdCounter = st.shockwaveIdCounter ∧
    (spawnBlock env K cfg pcx st).invincibilityFrames = st.invincibilityFrames := by
  simp only [spawnBlock]
  split <;> exact ⟨rfl, rfl, rfl, rfl, rfl, rfl, rfl⟩

theorem pruneEnemies_frame (K : Consts) (st : GameSt) :
    (pruneEnemies K st).score = st.score ∧
    (pruneEnemies K st).player = st.player ∧
    (pruneEnemies K st).elapsedTime = st.elapsedTime ∧
    (pruneEnemies K st).gameState = st.gameState ∧
    (pruneEnemies K st).shockwaves = st.shockwaves ∧
    (pruneEnemies K st).shockwaveIdCounter = st.shockwaveIdCounter ∧
    (pruneEnemies K st).invincibilityFrames = st.invincibilityFrames :=
  ⟨rfl, rfl, rfl, rfl, rfl, rfl, rfl⟩

theorem swKillStep_frame (env : JsEnv) (cfg : GameConfig) (pcx pcy : ℚ) (sw : Shockwave)
    (acc : GameSt × List Enemy) (e : Enemy) :
    (swKillStep env cfg pcx pcy sw acc e).1.score = acc.1.score ∧
    (swKillStep env cfg pcx pcy sw acc e).1.player = acc.1.player ∧
    (swKillStep env cfg pcx pcy sw acc e).1.elapsedTime = acc.1.elapsedTime ∧
    (swKillStep env cfg pcx pcy sw acc e).1.gameState = acc.1.gameState ∧
    (swKillStep env cfg pcx pcy sw acc e).1.invincibilityFrames = acc.1.invincibilityFrames ∧
    (swKillStep env cfg pcx pcy sw acc e).1.pulses = acc.1.pulses ∧
    (swKillStep env cfg pcx pcy sw acc e).1.particles = acc.1.particles ∧
    (swKillStep env cfg pcx pcy sw acc e).1.randIdx = acc.1.randIdx ∧
    (swKillStep env cfg pcx pcy sw acc e).1.enemyIdCounter = acc.1.enemyIdCounter := by
  simp only [swKillStep]
  split
  · exact ⟨rfl, rfl, rfl, rfl, rfl, rfl, rfl, rfl, rfl⟩
  · split
    · exact ⟨triggerShockwave_score _ _ _ _ _, triggerShockwave_player _ _ _ _ _,
        triggerShockwave_elapsedTime _ _ _ _ _, triggerShockwave_gameState _ _ _ _ _,
        triggerShockwave_invincibilityFrames _ _ _ _ _, triggerShockwave_pulses _ _ _ _ _,
        triggerShockwave_particles _ _ _ _ _, triggerShockwave_randIdx _ _ _ _ _,
        triggerShockwave_enemyIdCounter _ _ _ _ _⟩
    · exact ⟨rfl, rfl, rfl, rfl, rfl, rfl, rfl, rfl, rfl⟩

theorem swInnerFold_frame (env : JsEnv) (cfg : GameConfig) (pcx pcy : ℚ) (sw : Shockwave)
    (es : List Enemy) (b0 : GameSt × List Enemy) :
    ((es.foldl (swKillStep env cfg pcx pcy sw) b0).1).score = b0.1.score ∧
    ((es.foldl (swKillStep env cfg pcx pcy sw) b0).1).player = b0.1.player ∧
    ((es.foldl (swKillStep env cfg pcx pcy sw) b0).1).elapsedTime = b0.1.elapsedTime ∧
    ((es.foldl (swKillStep env cfg pcx pcy sw) b0).1).gameState = b0.1.gameState ∧
    ((es.foldl (swKillStep env cfg pcx pcy sw) b0).1).invincibilityFrames
      = b0.1.invincibilityFrames ∧
    ((es.foldl (swKillStep env cfg pcx pcy sw) b0).1).pulses = b0.1.pulses ∧
    ((es.foldl (swKillStep env cfg pcx pcy sw) b0).1).particles = b0.1.particles ∧
    ((es.foldl (swKillStep env cfg pcx pcy sw) b0).1).randIdx = b0.1.randIdx ∧
    ((es.foldl (swKillStep env cfg pcx pcy sw) b0).1).enemyIdCounter = b0.1.enemyIdCounter := by
  refine foldl_preserve
    (P := fun b : GameSt × List Enemy => b.1.score = b0.1.score ∧ b.1.player = b0.1.player ∧
      b.1.elapsedTime = b0.1.elapsedTime ∧ b.1.gameState = b0.1.gameState ∧
      b.1.invincibilityFrames = b0.1.invincibilityFrames ∧ b.1.pulses = b0.1.pulses ∧
      b.1.particles = b0.1.particles ∧ b.1.randIdx = b0.1.randIdx ∧
      b.1.enemyIdCounter = b0.1.enemyIdCounter) _
    (fun b a hb => ?_) es b0 ⟨rfl, rfl, rfl, rfl, rfl, rfl, rfl, rfl, rfl⟩
  obtain ⟨s1, s2, s3, s4, s5, s6, s7, s8, s9⟩ := swKillStep_frame env cfg pcx pcy sw b a
  exact ⟨s1.trans hb.1, s2.trans hb.2.1, s3.trans hb.2.2.1, s4.trans hb.2.2.2.1,
    s5.trans hb.2.2.2.2.1, s6.trans hb.2.2.2.2.2.1, s7.trans hb.2.2.2.2.2.2.1,
    s8.trans hb.2.2.2.2.2.2.2.1, s9.trans hb.2.2.2.2.2.2.2.2⟩

theorem shockwaveStep_frame (env : JsEnv) (cfg : GameConfig) (pcx pcy : ℚ) (st : GameSt)
    (i : ℕ) :
    (shockwaveStep env cfg pcx pcy st i).score = st.score ∧
    (shockwaveStep env cfg pcx pcy st i).player = st.player ∧
    (shockwaveStep env cfg pcx pcy st i).elapsedTime = st.elapsedTime ∧
    (shockwaveStep env cfg pcx pcy st i).gameState = st.gameState ∧
    (shockwaveStep env cfg pcx pcy st i).invincibilityFrames = st.invincibilityFrames ∧
    (shockwaveStep env cfg pcx pcy st i).pulses = st.pulses ∧
    (shockwaveStep env cfg pcx pcy st i).particles = st.particles ∧
    (shockwaveStep env cfg pcx pcy st i).randIdx = st.randIdx ∧
    (shockwaveStep env cfg pcx pcy st i).enemyIdCounter = st.enemyIdCounter := by
  simp only [shockwaveStep]
  cases h : st.shockwaves[i]? with
  | none => exact ⟨rfl, rfl, rfl, rfl, rfl, rfl, rfl, rfl, rfl⟩
  | some sw0 =>
    exact swInnerFold_frame env cfg pcx pcy _ st.enemies _

theorem shockwavePass_frame (env : JsEnv) (cfg : GameConfig) (pcx pcy : ℚ) (st : GameSt) :
    (shockwavePass env cfg pcx pcy st).score = st.score ∧
    (shockwavePass env cfg pcx pcy st).player = st.player ∧
    (shockwavePass env cfg pcx pcy st).elapsedTime = st.elapsedTime ∧
    (shockwavePass env cfg pcx pcy st).gameState = st.gameState ∧
    (shockwavePass env cfg pcx pcy st).invincibilityFrames = st.invincibilityFrames := by
  unfold shockwavePass
  have h := foldl_preserve
    (P := fun b : GameSt => b.score = st.score ∧ b.player = st.player ∧
      b.elapsedTime = st.elapsedTime ∧ b.gameState = st.gameState ∧
      b.invincibilityFrames = st.invincibilityFrames) _
    (fun b i hb =>
      have hs := shockwaveStep_frame env cfg pcx pcy b i
      ⟨hs.1.trans hb.1, hs.2.1.trans hb.2.1, hs.2.2.1.trans hb.2.2.1,
        hs.2.2.2.1.trans hb.2.2.2.1, hs.2.2.2.2.1.trans hb.2.2.2.2⟩)
    (List.range st.shockwaves.length) st ⟨rfl, rfl, rfl, rfl, rfl⟩
  exact h

theorem contactStep_frame (env : JsEnv) (pcx pcy thr invinc : ℚ)
    (acc : GameSt × List Enemy) (e : Enemy) :
    (contactStep env pcx pcy thr invinc acc e).1.score = acc.1.score ∧
    (contactStep env pcx pcy thr invinc acc e).1.player = acc.1.player ∧
    (contactStep env pcx pcy thr invinc acc e).1.elapsedTime = acc.1.elapsedTime ∧
    (contactStep env pcx pcy thr invinc acc e).1.shockwaves = acc.1.shockwaves ∧
    (contactStep env pcx pcy thr invinc acc e).1.shockwaveIdCounter = acc.1.shockwaveIdCounter ∧
    (contactStep env pcx pcy thr invinc acc e).1.invincibilityFrames
      = acc.1.invincibilityFrames := by
  simp only [contactStep]
  split <;> exact ⟨rfl, rfl, rfl, rfl, rfl, rfl⟩

theorem moveAndContact_frame (env : JsEnv) (pcx pcy : ℚ) (st : GameSt) :
    (moveAndContact env pcx pcy st).score = st.score ∧
    (moveAndContact env pcx pcy st).player = st.player ∧
    (moveAndContact env pcx pcy st).elapsedTime = st.elapsedTime ∧
    (moveAndContact env pcx pcy st).shockwaves = st.shockwaves ∧
    (moveAndContact env pcx pcy st).shockwaveIdCounter = st.shockwaveIdCounter ∧
    (moveAndContact env pcx pcy st).invincibilityFrames = st.invincibilityFrames := by
  unfold moveAndContact
  refine foldl_preserve
    (P := fun b : GameSt × List Enemy => b.1.score = st.score ∧ b.1.player = st.player ∧
      b.1.elapsedTime = st.elapsedTime ∧ b.1.shockwaves = st.shockwaves ∧
      b.1.shockwaveIdCounter = st.shockwaveIdCounter ∧
      b.1.invincibilityFrames = st.invincibilityFrames) _
    ?_ st.enemies _ ⟨rfl, rfl, rfl, rfl, rfl, rfl⟩
  intro b a hb
  have hs := contactStep_frame env pcx pcy (st.player.width / 2 - 2) st.invincibilityFrames b a
  exact ⟨hs.1.trans hb.1, hs.2.1.trans hb.2.1, hs.2.2.1.trans hb.2.2.1,
    hs.2.2.2.1.trans hb.2.2.2.1, hs.2.2.2.2.1.trans hb.2.2.2.2.1,
    hs.2.2.2.2.2.trans hb.2.2.2.2.2⟩

theorem integrateKinematics_y (K : Consts) (cfg : GameConfig) (p0 : Player) :
    (integrateKinematics K cfg p0).y = p0.y + (p0.vy + cfg.gravity * 1) * 1 := by
  simp only [integrateKinematics]; split <;> rfl

theorem integrateKinematics_fuel (K : Consts) (cfg : GameConfig) (p0 : Player) :
    (integrateKinematics K cfg p0).fuel = p0.fuel := by
  simp only [integrateKinematics]; split <;> rfl

theorem integrateKinematics_maxFuel (K : Consts) (cfg : GameConfig) (p0 : Player) :
    (integrateKinematics K cfg p0).maxFuel = p0.maxFuel := by
  simp only [integrateKinematics]; split <;> rfl

theorem bounceLeft_y (cfg : GameConfig) (ps : Player × Shake) :
    (bounceLeft cfg ps).1.y = ps.1.y := by
  simp only [bounceLeft]; split <;> rfl

theorem bounceLeft_fuel (cfg : GameConfig) (ps : Player × Shake) :
    (bounceLeft cfg ps).1.fuel = ps.1.fuel := by
  simp only [bounceLeft]; split <;> rfl

theorem bounceLeft_maxFuel (cfg : GameConfig) (ps : Player × Shake) :
    (bounceLeft cfg ps).1.maxFuel = ps.1.maxFuel := by
  simp only [bounceLeft]; split <;> rfl

theorem bounceRight_y (K : Consts) (cfg : GameConfig) (ps : Player × Shake) :
    (bounceRight K cfg ps).1.y = ps.1.y := by
  simp only [bounceRight]; split <;> rfl

theorem bounceRight_fuel (K : Consts) (cfg : GameConfig) (ps : Player × Shake) :
    (bounceRight K cfg ps).1.fuel = ps.1.fuel := by
  simp only [bounceRight]; split <;> rfl

theorem bounceRight_maxFuel (K : Consts) (cfg : GameConfig) (ps : Player × Shake) :
    (bounceRight K cfg ps).1.maxFuel = ps.1.maxFuel := by
  simp only [bounceRight]; split <;> rfl

theorem regenFuel_y (cfg : GameConfig) (p : Player) : (regenFuel cfg p).y = p.y := by
  simp only [regenFuel]; split <;> rfl

theorem regenFuel_fuel (cfg : GameConfig) (p : Player) :
    (regenFuel cfg p).fuel
      = if p.fuel < p.maxFuel then min p.maxFuel (p.fuel + cfg.fuelRegen * 1) else p.fuel := by
  simp only [regenFuel]; split <;> simp_all

theorem regenFuel_maxFuel (cfg : GameConfig) (p : Player) :
    (regenFuel cfg p).maxFuel = p.maxFuel := by
  simp only [regenFuel]; split <;> rfl

theorem fallCheck_frame (K : Consts) (st : GameSt) :
    (fallCheck K st).score = st.score ∧
    (fallCheck K st).elapsedTime = st.elapsedTime ∧
    (fallCheck K st).player = st.player ∧
    (fallCheck K st).enemies = st.enemies ∧
    (fallCheck K st).shockwaves = st.shockwaves ∧
    (fallCheck K st).shockwaveIdCounter = st.shockwaveIdCounter ∧
    (fallCheck K st).invincibilityFrames = st.invincibilityFrames ∧
    (fallCheck K st).pulses = st.pulses ∧
    (fallCheck K st).particles = st.particles := by
  simp only [fallCheck]
  split <;> exact ⟨rfl, rfl, rfl, rfl, rfl, rfl, rfl, rfl, rfl⟩

theorem fallCheck_gameState (K : Consts) (st : GameSt) :
    (fallCheck K st).gameState
      = if st.player.y > K.GAME_HEIGHT then GameState.GAMEOVER else st.gameState := by
  simp only [fallCheck]
  split <;> simp_all

theorem shakeTick_frame (env : JsEnv) (st : GameSt) :
    (shakeTick env st).score = st.score ∧
    (shakeTick env st).elapsedTime = st.elapsedTime ∧
    (shakeTick env st).player = st.player ∧
    (shakeTick env st).enemies = st.enemies ∧
    (shakeTick env st).shockwaves = st.shockwaves ∧
    (shakeTick env st).shockwaveIdCounter = st.shockwaveIdCounter ∧
    (shakeTick env st).invincibilityFrames = st.invincibilityFrames ∧
    (shakeTick env st).pulses = st.pulses ∧
    (shakeTick env st).particles = st.particles ∧
    (shakeTick env st).gameState = st.gameState := by
  simp only [shakeTick]
  split <;> exact ⟨rfl, rfl, rfl, rfl, rfl, rfl, rfl, rfl, rfl, rfl⟩

theorem integratePlayer_frame (env : JsEnv) (K : Consts) (cfg : GameConfig) (st : GameSt) :
    (integratePlayer env K cfg st).score = st.score ∧
    (integratePlayer env K cfg st).elapsedTime = st.elapsedTime ∧
    (integratePlayer env K cfg st).enemies = st.enemies ∧
    (integratePlayer env K cfg st).shockwaves = st.shockwaves ∧
    (integratePlayer env K cfg st).shockwaveIdCounter = st.shockwaveIdCounter ∧
    (integratePlayer env K cfg st).invincibilityFrames = st.invincibilityFrames ∧
    (integratePlayer env K cfg st).pulses = st.pulses ∧
    (integratePlayer env K cfg st).particles = st.particles := by
  unfold integratePlayer
  obtain ⟨f1, f2, f3, f4, f5, f6, f7, f8, f9⟩ := fallCheck_frame K
    { st with
      player := regenFuel cfg
        (bounceRight K cfg (bounceLeft cfg (integrateKinematics K cfg st.player, st.shake))).1
      shake := (bounceRight K cfg (bounceLeft cfg (integrateKinematics K cfg st.player, st.shake))).2 }
  obtain ⟨s1, s2, s3, s4, s5, s6, s7, s8, s9, s10⟩ := shakeTick_frame env
    (fallCheck K
      { st with
        player := regenFuel cfg
          (bounceRight K cfg (bounceLeft cfg (integrateKinematics K cfg st.player, st.shake))).1
        shake :=
          (bounceRight K cfg (bounceLeft cfg (integrateKinematics K cfg st.player, st.shake))).2 })
  exact ⟨s1.trans f1, s2.trans f2, s4.trans f4, s5.trans f5, s6.trans f6, s7.trans f7,
    s8.trans f8, s9.trans f9⟩

/-- The `GAMEOVER` transition of the physics stage fires exactly when the
post-integration `y` exceeds the bottom boundary. -/
theorem integratePlayer_gameState (env : JsEnv) (K : Consts) (cfg : GameConfig) (st : GameSt) :
    (integratePlayer env K cfg st).gameState
      = if st.player.y + (st.player.vy + cfg.gravity * 1) * 1 > K.GAME_HEIGHT
        then GameState.GAMEOVER else st.gameState := by
  unfold integratePlayer
  rw [(shakeTick_frame env _).2.2.2.2.2.2.2.2.2, fallCheck_gameState]
  have hy : (regenFuel cfg
      (bounceRight K cfg (bounceLeft cfg (integrateKinematics K cfg st.player, st.shake))).1).y
      = st.player.y + (st.player.vy + cfg.gravity * 1) * 1 := by
    rw [regenFuel_y, bounceRight_y, bounceLeft_y, integrateKinematics_y]
  show (if (regenFuel cfg _).y > K.GAME_HEIGHT then GameState.GAMEOVER else st.gameState) = _
  rw [hy]

/-- Fuel and fuel capacity through the physics stage: regeneration toward
`maxFuel`, never overshooting. -/
theorem integratePlayer_fuel (env : JsEnv) (K : Consts) (cfg : GameConfig) (st : GameSt) :
    (integratePlayer env K cfg st).player.fuel
      = (if st.player.fuel < st.player.maxFuel
         then min st.player.maxFuel (st.player.fuel + cfg.fuelRegen * 1)
         else st.player.fuel) ∧
    (integratePlayer env K cfg st).player.maxFuel = st.player.maxFuel := by
  unfold integratePlayer
  rw [(shakeTick_frame env _).2.2.1, (fallCheck_frame K _).2.2.1]
  have hf : (bounceRight K cfg (bounceLeft cfg (integrateKinematics K cfg st.player, st.shake))).1.fuel
      = st.player.fuel := by
    rw [bounceRight_fuel, bounceLeft_fuel, integrateKinematics_fuel]
  have hm : (bounceRight K cfg (bounceLeft cfg (integrateKinematics K cfg st.player, st.shake))).1.maxFuel
      = st.player.maxFuel := by
    rw [bounceRight_maxFuel, bounceLeft_maxFuel, integrateKinematics_maxFuel]
  constructor
  · rw [regenFuel_fuel, hf, hm]
  · rw [regenFuel_maxFuel, hm]

/-- `contactStep` can only set the state to `GAMEOVER`, never leave it. -/
theorem contactStep_gameover (env : JsEnv) (pcx pcy thr invinc : ℚ)
    (acc : GameSt × List Enemy) (e : Enemy) (h : acc.1.gameState = GameState.GAMEOVER) :
    (contactStep env pcx pcy thr invinc acc e).1.gameState = GameState.GAMEOVER := by
  simp only [contactStep]
  split
  · rfl
  · exact h

theorem moveAndContact_gameover (env : JsEnv) (pcx pcy : ℚ) (st : GameSt)
    (h : st.gameState = GameState.GAMEOVER) :
    (moveAndContact env pcx pcy st).gameState = GameState.GAMEOVER := by
  unfold moveAndContact
  exact foldl_preserve (P := fun b : GameSt × List Enemy => b.1.gameState = GameState.GAMEOVER) _
    (fun b a hb => contactStep_gameover env pcx pcy _ _ b a hb) st.enemies _ h

/-! ### Update-level lemmas -/

/-- Outside `PLAYING`, `update` only advances the elapsed-tick counter
(Game.tsx lines 341-343). -/
theorem update_not_playing (env : JsEnv) (K : Consts) (cfg : GameConfig) (st : GameSt)
    (h : st.gameState ≠ GameState.PLAYING) :
    update env K cfg st = { st with elapsedTime := st.elapsedTime + 1 } := by
  simp only [update]
  split
  · rfl
  · rename_i hcond
    exact absurd h (by simpa using hcond)

/-- In `PLAYING`, one tick sets the score from the advanced elapsed-tick
counter and advances that counter by one. -/
theorem update_playing_fields (env : JsEnv) (K : Consts) (cfg : GameConfig) (st : GameSt)
    (h : st.gameState = GameState.PLAYING) :
    (update env K cfg st).score = ⌊(st.elapsedTime + 1) / 60⌋ * 10 ∧
    (update env K cfg st).elapsedTime = st.elapsedTime + 1 := by
  simp only [update]
  split
  · rename_i hcond
    exact absurd (by simpa using hcond) (by simp [h])
  · constructor
    · rw [(pruneEnemies_frame K _).1, (moveAndContact_frame _ _ _ _).1,
        (spawnBlock_frame _ _ _ _ _).1, (shockwavePass_frame _ _ _ _ _).1,
        (tickPulses_frame _).1, (integrateParticles_frame _ _).1,
        (integratePlayer_frame _ _ _ _).1, (tickTimers_frame _).1]
    · rw [(pruneEnemies_frame K _).2.2.1, (moveAndContact_frame _ _ _ _).2.2.1,
        (spawnBlock_frame _ _ _ _ _).2.2.1, (shockwavePass_frame _ _ _ _ _).2.2.1,
        (tickPulses_frame _).2.2.1, (integrateParticles_frame _ _).2.2.1,
        (integratePlayer_frame _ _ _ _).2.1, (tickTimers_frame _).2.2.1]

/-- Every tick advances the elapsed-tick counter by exactly one. -/
theorem update_elapsedTime (env : JsEnv) (K : Consts) (cfg : GameConfig) (st : GameSt) :
    (update env K cfg st).elapsedTime = st.elapsedTime + 1 := by
  by_cases h : st.gameState = GameState.PLAYING
  · exact (update_playing_fields env K cfg st h).2
  · rw [update_not_playing env K cfg st h]

/-- `update` never enters `PLAYING`: a `PLAYING` result means a `PLAYING`
argument. -/
theorem update_playing_of (env : JsEnv) (K : Consts) (cfg : GameConfig) (st : GameSt)
    (h : (update env K cfg st).gameState = GameState.PLAYING) :
    st.gameState = GameState.PLAYING := by
  by_contra hne
  rw [update_not_playing env K cfg st hne] at h
  exact hne h

/-- A tick whose physics integration carries the player past the bottom
boundary ends in `GAMEOVER`. -/
theorem update_fall_gameover (env : JsEnv) (K : Consts) (cfg : GameConfig) (st : GameSt)
    (h : st.gameState = GameState.PLAYING)
    (hy : st.player.y + (st.player.vy + cfg.gravity * 1) * 1 > K.GAME_HEIGHT) :
    (update env K cfg st).gameState = GameState.GAMEOVER := by
  simp only [update]
  split
  · rename_i hcond
    exact absurd (by simpa using hcond) (by simp [h])
  · rw [(pruneEnemies_frame K _).2.2.2.1]
    apply moveAndContact_gameover
    rw [(spawnBlock_frame _ _ _ _ _).2.2.2.1, (shockwavePass_frame _ _ _ _ _).2.2.2.1,
      (tickPulses_frame _).2.2.2.1, (integrateParticles_frame _ _).2.2.2.1,
      integratePlayer_gameState, (tickTimers_frame _).2.1]
    split
    · rfl
    · rename_i hfalse
      exact absurd hy hfalse

theorem updateN_succ (env : JsEnv) (K : Consts) (cfg : GameConfig) (n : ℕ) (st : GameSt) :
    updateN env K cfg (n + 1) st = update env K cfg (updateN env K cfg n st) :=
  Function.iterate_succ_apply' (update env K cfg) n st

theorem updateN_elapsedTime (env : JsEnv) (K : Consts) (cfg : GameConfig) :
    ∀ (n : ℕ) (st : GameSt),
      (updateN env K cfg n st).elapsedTime = st.elapsedTime + n := by
  intro n
  induction n with
  | zero => intro st; simp [updateN]
  | succ n ih =>
    intro st
    rw [updateN_succ, update_elapsedTime, ih]
    push_cast
    ring

/-! ### Claim C4: score formula and freezing -/

/-- C4: (1) after `n` ticks from a reset that end in `PLAYING` (so the whole
run stayed `PLAYING`, since `update` never re-enters `PLAYING`), the score
is exactly `⌊n / 60⌋ * 10`; (2) in particular after 180 uninterrupted
`PLAYING` ticks the score is 30; (3) from a `GAMEOVER` state any number of
further ticks leaves the score (and the state) frozen. -/
theorem C4_score_formula :
    (∀ (env : JsEnv) (K : Consts) (cfg : GameConfig) (st0 : GameSt) (n : ℕ),
        (updateN env K cfg n (resetGame K cfg st0)).gameState = GameState.PLAYING →
        (updateN env K cfg n (resetGame K cfg st0)).score = ⌊(n : ℚ) / 60⌋ * 10) ∧
    (∀ (env : JsEnv) (K : Consts) (cfg : GameConfig) (st0 : GameSt),
        (updateN env K cfg 180 (resetGame K cfg st0)).gameState = GameState.PLAYING →
        (updateN env K cfg 180 (resetGame K cfg st0)).score = 30) ∧
    (∀ (env : JsEnv) (K : Consts) (cfg : GameConfig) (st : GameSt) (n : ℕ),
        st.gameState = GameState.GAMEOVER →
        (updateN env K cfg n st).score = st.score ∧
        (updateN env K cfg n st).gameState = GameState.GAMEOVER) := by
  have hover : ∀ (env : JsEnv) (K : Consts) (cfg : GameConfig) (st : GameSt) (n : ℕ),
      st.gameState = GameState.GAMEOVER →
      (updateN env K cfg n st).score = st.score ∧
      (updateN env K cfg n st).gameState = GameState.GAMEOVER := by
    intro env K cfg st n h
    induction n with
    | zero => exact ⟨rfl, h⟩
    | succ n ih =>
      rw [updateN_succ, update_not_playing env K cfg _ (by rw [ih.2]; intro hc; cases hc)]
      exact ih
  have hmain : ∀ (env : JsEnv) (K : Consts) (cfg : GameConfig) (st0 : GameSt) (n : ℕ),
      (updateN env K cfg n (resetGame K cfg st0)).gameState = GameState.PLAYING →
      (updateN env K cfg n (resetGame K cfg st0)).score = ⌊(n : ℚ) / 60⌋ * 10 := by
    intro env K cfg st0 n
    induction n with
    | zero =>
      intro _
      simp [updateN, resetGame]
    | succ n ih =>
      intro h
      rw [updateN_succ] at h ⊢
      have hpre := update_playing_of env K cfg _ h
      have hf := update_playing_fields env K cfg _ hpre
      rw [hf.1]
      have he := updateN_elapsedTime env K cfg n (resetGame K cfg st0)
      have he0 : (resetGame K cfg st0).elapsedTime = 0 := rfl
      rw [he0, zero_add] at he
      rw [he]
      push_cast
      ring_nf
  refine ⟨hmain, ?_, hover⟩
  intro env K cfg st0 h
  have := hmain env K cfg st0 180 h
  rw [this]
  norm_num

/-- A quiet configuration: no gravity, no spawning, so a reset run stays
`PLAYING` with the player frozen in place. -/
def c4cfg : GameConfig :=
  { cfg0 with gravity := 0, enemySpawnRate := 0, difficultyScale := 0, audioEnabled := false }

set_option maxRecDepth 8000 in
attribute [local semireducible] Rat.add Rat.sub Rat.mul Rat.inv in
/-- C4 witness: a concrete 61-tick quiet run stays in `PLAYING` and the
theorem yields the concrete score `⌊61 / 60⌋ * 10 = 10`. -/
theorem C4_witness :
    (updateN env0 K0 c4cfg 61 (resetGame K0 c4cfg (initState K0 c4cfg))).gameState
      = GameState.PLAYING ∧
    (updateN env0 K0 c4cfg 61 (resetGame K0 c4cfg (initState K0 c4cfg))).score = 10 := by
  have hp : (updateN env0 K0 c4cfg 61 (resetGame K0 c4cfg (initState K0 c4cfg))).gameState
      = GameState.PLAYING := by decide
  refine ⟨hp, ?_⟩
  have := C4_score_formula.1 env0 K0 c4cfg (initState K0 c4cfg) 61 hp
  rw [this]
  norm_num

/-! ### Claim C5: state machine transitions -/

/-- C5: (1) an interaction in `START` or `GAMEOVER` is a full reset — state
`PLAYING`, score and elapsed ticks zeroed, all transient entity collections
cleared, player reinitialised at full fuel with zero velocity, invincibility
cleared; (2) an interaction in `PLAYING` is exactly `executeJump` and
performs no reset (score, elapsed ticks and state are untouched); (3) a
`PLAYING` tick whose physics carries the player past the bottom boundary
transitions to `GAMEOVER`. -/
theorem C5_state_machine :
    (∀ (env : JsEnv) (K : Consts) (cfg : GameConfig) (mx my : ℚ) (st : GameSt),
        st.gameState = GameState.START ∨ st.gameState = GameState.GAMEOVER →
        handleGlobalInteraction env K cfg mx my st = resetGame K cfg st ∧
        (resetGame K cfg st).gameState = GameState.PLAYING ∧
        (resetGame K cfg st).score = 0 ∧
        (resetGame K cfg st).elapsedTime = 0 ∧
        (resetGame K cfg st).enemies = [] ∧
        (resetGame K cfg st).particles = [] ∧
        (resetGame K cfg st).pulses = [] ∧
        (resetGame K cfg st).shockwaves = [] ∧
        (resetGame K cfg st).invincibilityFrames = 0 ∧
        (resetGame K cfg st).player.fuel = (resetGame K cfg st).player.maxFuel ∧
        (resetGame K cfg st).player.vx = 0 ∧
        (resetGame K cfg st).player.vy = 0) ∧
    (∀ (env : JsEnv) (K : Consts) (cfg : GameConfig) (mx my : ℚ) (st : GameSt),
        st.gameState = GameState.PLAYING →
        handleGlobalInteraction env K cfg mx my st = executeJump env K cfg mx my st ∧
        (executeJump env K cfg mx my st).score = st.score ∧
        (executeJump env K cfg mx my st).elapsedTime = st.elapsedTime ∧
        (executeJump env K cfg mx my st).gameState = GameState.PLAYING) ∧
    (∀ (env : JsEnv) (K : Consts) (cfg : GameConfig) (st : GameSt),
        st.gameState = GameState.PLAYING →
        st.player.y + (st.player.vy + cfg.gravity * 1) * 1 > K.GAME_HEIGHT →
        (update env K cfg st).gameState = GameState.GAMEOVER) := by
  refine ⟨?_, ?_, fun env K cfg st h hy => update_fall_gameover env K cfg st h hy⟩
  · intro env K cfg mx my st h
    have hne : st.gameState ≠ GameState.PLAYING := by
      rcases h with h | h <;> rw [h] <;> intro hc <;> cases hc
    refine ⟨?_, rfl, rfl, rfl, rfl, rfl, rfl, rfl, rfl, rfl, rfl, rfl⟩
    simp only [handleGlobalInteraction]
    rw [if_pos hne, if_pos h]
  · intro env K cfg mx my st h
    refine ⟨?_, executeJump_score env K cfg mx my st, executeJump_elapsedTime env K cfg mx my st,
      (executeJump_gameState env K cfg mx my st).trans h⟩
    simp only [handleGlobalInteraction]
    rw [if_neg (by simp [h])]

/-- C5 witness: the first interaction at the freshly mounted component
(state `START`) performs the documented reset. -/
theorem C5_witness :
    handleGlobalInteraction env0 K0 cfg0 5 5 (initState K0 cfg0)
      = resetGame K0 cfg0 (initState K0 cfg0) ∧
    (resetGame K0 cfg0 (initState K0 cfg0)).gameState = GameState.PLAYING ∧
    (resetGame K0 cfg0 (initState K0 cfg0)).score = 0 :=
  have h := C5_state_machine.1 env0 K0 cfg0 5 5 (initState K0 cfg0) (Or.inl rfl)
  ⟨h.1, h.2.1, h.2.2.1⟩

/-! ### Claim C3: fuel invariant on reachable states -/

theorem handleGlobalInteraction_not_playing (env : JsEnv) (K : Consts) (cfg : GameConfig)
    (mx my : ℚ) (st : GameSt) (h : st.gameState ≠ GameState.PLAYING) :
    handleGlobalInteraction env K cfg mx my st = resetGame K cfg st := by
  simp only [handleGlobalInteraction]
  rw [if_pos h, if_pos ?_]
  cases hg : st.gameState with
  | START => exact Or.inl rfl
  | PLAYING => exact absurd hg h
  | GAMEOVER => exact Or.inr rfl

theorem handleGlobalInteraction_playing (env : JsEnv) (K : Consts) (cfg : GameConfig)
    (mx my : ℚ) (st : GameSt) (h : st.gameState = GameState.PLAYING) :
    handleGlobalInteraction env K cfg mx my st = executeJump env K cfg mx my st := by
  simp only [handleGlobalInteraction]
  rw [if_neg (by simp [h])]

/-- Fuel and capacity through a `PLAYING` tick: regeneration toward
`maxFuel`, capacity untouched. -/
theorem update_fuel (env : JsEnv) (K : Consts) (cfg : GameConfig) (st : GameSt)
    (h : st.gameState = GameState.PLAYING) :
    (update env K cfg st).player.fuel
      = (if st.player.fuel < st.player.maxFuel
         then min st.player.maxFuel (st.player.fuel + cfg.fuelRegen * 1)
         else st.player.fuel) ∧
    (update env K cfg st).player.maxFuel = st.player.maxFuel := by
  simp only [update]
  split
  · rename_i hcond
    exact absurd (by simpa using hcond) (by simp [h])
  · constructor
    · rw [(pruneEnemies_frame K _).2.1, (moveAndContact_frame _ _ _ _).2.1,
        (spawnBlock_frame _ _ _ _ _).2.1, (shockwavePass_frame _ _ _ _ _).2.1,
        (tickPulses_frame _).2.1, (integrateParticles_frame _ _).2.1,
        (integratePlayer_fuel _ _ _ _).1, (tickTimers_frame _).2.1]
    · rw [(pruneEnemies_frame K _).2.1, (moveAndContact_frame _ _ _ _).2.1,
        (spawnBlock_frame _ _ _ _ _).2.1, (shockwavePass_frame _ _ _ _ _).2.1,
        (tickPulses_frame _).2.1, (integrateParticles_frame _ _).2.1,
        (integratePlayer_fuel _ _ _ _).2, (tickTimers_frame _).2.1]

/-- Fuel bounds are preserved by any jump call when `fuelConsumption ≥ 0`. -/
theorem executeJump_fuel_bounds (env : JsEnv) (K : Consts) (cfg : GameConfig) (mx my : ℚ)
    (st : GameSt) (hc : 0 ≤ cfg.fuelConsumption)
    (h0 : 0 ≤ st.player.fuel) (h1 : st.player.fuel ≤ st.player.maxFuel) :
    0 ≤ (executeJump env K cfg mx my st).player.fuel ∧
    (executeJump env K cfg mx my st).player.fuel
      ≤ (executeJump env K cfg mx my st).player.maxFuel := by
  by_cases hf : st.player.fuel < cfg.fuelConsumption
  · unfold executeJump
    rw [if_pos hf]
    exact ⟨h0, h1⟩
  · rw [executeJump_fuel env K cfg mx my st hf, executeJump_maxFuel env K cfg mx my st hf]
    have hcf : cfg.fuelConsumption ≤ st.player.fuel := not_lt.mp hf
    split
    · exact ⟨h0.trans h1, le_refl _⟩
    · constructor
      · linarith
      · linarith

/-- States reachable from a freshly mounted component through ticks and
interactions, under the claim's sign assumptions on the fuel economy of
every configuration used (`fuelConsumption ≥ 0` and `fuelRegen ≥ 0`). -/
inductive Reachable (K : Consts) : GameSt → Prop where
  | init (cfg : GameConfig) : Reachable K (initState K cfg)
  | tick (env : JsEnv) (cfg : GameConfig) (st : GameSt)
      (hc : 0 ≤ cfg.fuelConsumption) (hr : 0 ≤ cfg.fuelRegen) :
      Reachable K st → Reachable K (update env K cfg st)
  | interact (env : JsEnv) (cfg : GameConfig) (mx my : ℚ) (st : GameSt)
      (hc : 0 ≤ cfg.fuelConsumption) (hr : 0 ≤ cfg.fuelRegen) :
      Reachable K st → Reachable K (handleGlobalInteraction env K cfg mx my st)

/-- C3: on every reachable state (every tick and interaction, with
`fuelConsumption ≥ 0` and `fuelRegen ≥ 0`), `0 ≤ player.fuel ≤
player.maxFuel`: regeneration never overshoots `maxFuel`, a funded jump
only subtracts `fuelConsumption`, kill refills set fuel to exactly
`maxFuel`, and resets refill to full capacity. -/
theorem C3_fuel_invariant (K : Consts) (st : GameSt) (hK : 0 ≤ K.MAX_FUEL)
    (h : Reachable K st) :
    0 ≤ st.player.fuel ∧ st.player.fuel ≤ st.player.maxFuel := by
  induction h with
  | init cfg => exact ⟨hK, le_refl _⟩
  | tick env cfg st hc hr _ ih =>
    by_cases hp : st.gameState = GameState.PLAYING
    · obtain ⟨hfl, hmx⟩ := update_fuel env K cfg st hp
      rw [hfl, hmx]
      split
      · refine ⟨le_min (ih.1.trans ih.2) (by linarith [ih.1]), min_le_left _ _⟩
      · exact ih
    · rw [update_not_playing env K cfg st hp]
      exact ih
  | interact env cfg mx my st hc hr _ ih =>
    by_cases hp : st.gameState = GameState.PLAYING
    · rw [handleGlobalInteraction_playing env K cfg mx my st hp]
      exact executeJump_fuel_bounds env K cfg mx my st hc ih.1 ih.2
    · rw [handleGlobalInteraction_not_playing env K cfg mx my st hp]
      exact ⟨hK, le_refl _⟩

/-- C3 witness: a concrete reachable state — one tick after the first
interaction from a fresh mount — satisfies the invariant. -/
theorem C3_witness :
    0 ≤ (update env0 K0 cfg0 (handleGlobalInteraction env0 K0 cfg0 5 5
          (initState K0 cfg0))).player.fuel ∧
    (update env0 K0 cfg0 (handleGlobalInteraction env0 K0 cfg0 5 5
          (initState K0 cfg0))).player.fuel
      ≤ (update env0 K0 cfg0 (handleGlobalInteraction env0 K0 cfg0 5 5
          (initState K0 cfg0))).player.maxFuel :=
  C3_fuel_invariant K0 _ (by norm_num [K0])
    (Reachable.tick env0 cfg0 _ (by norm_num [cfg0]) (by norm_num [cfg0])
      (Reachable.interact env0 cfg0 5 5 _ (by norm_num [cfg0]) (by norm_num [cfg0])
        (Reachable.init cfg0)))

/-! ### Claim C7: shockwave chain elimination and the burning toggle -/

theorem swKillStep_off (env : JsEnv) (cfg : GameConfig) (pcx pcy : ℚ) (sw : Shockwave)
    (acc : GameSt × List Enemy) (e : Enemy) (hb : cfg.burningEnabled = false) :
    (swKillStep env cfg pcx pcy sw acc e).1.shockwaves = acc.1.shockwaves ∧
    (swKillStep env cfg pcx pcy sw acc e).1.shockwaveIdCounter = acc.1.shockwaveIdCounter := by
  simp only [swKillStep]
  split
  · exact ⟨rfl, rfl⟩
  · split
    · simp [triggerShockwave_off _ _ _ _ _ hb]
    · exact ⟨rfl, rfl⟩

theorem swInnerFold_off (env : JsEnv) (cfg : GameConfig) (pcx pcy : ℚ) (sw : Shockwave)
    (es : List Enemy) (b0 : GameSt × List Enemy) (hb : cfg.burningEnabled = false) :
    ((es.foldl (swKillStep env cfg pcx pcy sw) b0).1).shockwaves = b0.1.shockwaves ∧
    ((es.foldl (swKillStep env cfg pcx pcy sw) b0).1).shockwaveIdCounter
      = b0.1.shockwaveIdCounter :=
  foldl_preserve
    (P := fun b : GameSt × List Enemy => b.1.shockwaves = b0.1.shockwaves ∧
      b.1.shockwaveIdCounter = b0.1.shockwaveIdCounter) _
    (fun b a hp =>
      ⟨((swKillStep_off env cfg pcx pcy sw b a hb).1).trans hp.1,
       ((swKillStep_off env cfg pcx pcy sw b a hb).2).trans hp.2⟩)
    es b0 ⟨rfl, rfl⟩

theorem shockwaveStep_off (env : JsEnv) (cfg : GameConfig) (pcx pcy : ℚ) (st : GameSt)
    (i : ℕ) (hb : cfg.burningEnabled = false) :
    (shockwaveStep env cfg pcx pcy st i).shockwaves.length = st.shockwaves.length ∧
    (shockwaveStep env cfg pcx pcy st i).shockwaveIdCounter = st.shockwaveIdCounter := by
  simp only [shockwaveStep]
  cases h : st.shockwaves[i]? with
  | none => exact ⟨rfl, rfl⟩
  | some sw0 =>
    obtain ⟨h1, h2⟩ := swInnerFold_off env cfg pcx pcy _ st.enemies
      ({ st with shockwaves := st.shockwaves.set i _ }, []) hb
    constructor
    · rw [h1]
      exact List.length_set _ _ _
    · exact h2

theorem shockwavePass_off (env : JsEnv) (cfg : GameConfig) (pcx pcy : ℚ) (st : GameSt)
    (hb : cfg.burningEnabled = false) :
    (shockwavePass env cfg pcx pcy st).shockwaves.length ≤ st.shockwaves.length ∧
    (shockwavePass env cfg pcx pcy st).shockwaveIdCounter = st.shockwaveIdCounter := by
  unfold shockwavePass
  have h := foldl_preserve
    (P := fun b : GameSt => b.shockwaves.length = st.shockwaves.length ∧
      b.shockwaveIdCounter = st.shockwaveIdCounter) _
    (fun b i hp =>
      ⟨((shockwaveStep_off env cfg pcx pcy b i hb).1).trans hp.1,
       ((shockwaveStep_off env cfg pcx pcy b i hb).2).trans hp.2⟩)
    (List.range st.shockwaves.length) st ⟨rfl, rfl⟩
  refine ⟨?_, h.2⟩
  have hle := List.length_filter_le (fun sw => decide (sw.life > 0))
    ((List.range st.shockwaves.length).foldl (shockwaveStep env cfg pcx pcy) st).shockwaves
  rw [h.1] at hle
  exact hle

/-- With burning disabled, a whole tick creates no shockwave. -/
theorem update_shockwaves_off (env : JsEnv) (K : Consts) (cfg : GameConfig) (st : GameSt)
    (hb : cfg.burningEnabled = false) :
    (update env K cfg st).shockwaveIdCounter = st.shockwaveIdCounter ∧
    (update env K cfg st).shockwaves.length ≤ st.shockwaves.length := by
  by_cases hp : st.gameState = GameState.PLAYING
  · simp only [update]
    split
    · rename_i hcond
      exact absurd (by simpa using hcond) (by simp [hp])
    · constructor
      · rw [(pruneEnemies_frame K _).2.2.2.2.2.1, (moveAndContact_frame _ _ _ _).2.2.2.2.1,
          (spawnBlock_frame _ _ _ _ _).2.2.2.2.2.1,
          (shockwavePass_off _ _ _ _ _ hb).2,
          (tickPulses_frame _).2.2.2.2.2.1, (integrateParticles_frame _ _).2.2.2.2.2.1,
          (integratePlayer_frame _ _ _ _).2.2.2.2.1, (tickTimers_frame _).2.2.2.2.2]
      · rw [(pruneEnemies_frame K _).2.2.2.2.1, (moveAndContact_frame _ _ _ _).2.2.2.1,
          (spawnBlock_frame _ _ _ _ _).2.2.2.2.1]
        calc (shockwavePass env cfg _ _ _).shockwaves.length
            ≤ (tickPulses (integrateParticles cfg (integratePlayer env K cfg
                (tickTimers { st with elapsedTime := st.elapsedTime + 1 })))).shockwaves.length :=
              (shockwavePass_off _ _ _ _ _ hb).1
          _ = st.shockwaves.length := by
              rw [(tickPulses_frame _).2.2.2.2.1, (integrateParticles_frame _ _).2.2.2.2.1,
                (integratePlayer_frame _ _ _ _).2.2.2.1, (tickTimers_frame _).2.2.2.2.1]
  · rw [update_not_playing env K cfg st hp]
    exact ⟨rfl, le_refl _⟩

/-- C7: (1) during the shockwave pass, a live enemy with nonnegative radius
whose distance to the shockwave center is below the shockwave's radius is
marked dead, and exactly one chained shockwave is appended for it, with
`maxRadius = burningRadius * 0.8` and full `burningDuration` life; (2) with
`burningEnabled = false`, no tick, no jump and no interaction ever creates
a shockwave. -/
theorem C7_chain_elimination :
    (∀ (env : JsEnv) (cfg : GameConfig) (pcx pcy : ℚ) (sw : Shockwave)
        (st : GameSt) (acc : List Enemy) (e : Enemy),
        cfg.burningEnabled = true → e.isDead = false → 0 ≤ e.radius →
        env.sqrt ((e.x - sw.x) * (e.x - sw.x) + (e.y - sw.y) * (e.y - sw.y)) < sw.radius →
        (swKillStep env cfg pcx pcy sw (st, acc) e).2 = acc ++ [{ e with isDead := true }] ∧
        (swKillStep env cfg pcx pcy sw (st, acc) e).1.shockwaves
          = st.shockwaves ++
            [{ x := pcx, y := pcy, radius := 0, maxRadius := cfg.burningRadius * (8/10),
               life := cfg.burningDuration, maxLife := cfg.burningDuration,
               id := st.shockwaveIdCounter }] ∧
        (swKillStep env cfg pcx pcy sw (st, acc) e).1.shockwaveIdCounter
          = st.shockwaveIdCounter + 1) ∧
    (∀ (env : JsEnv) (K : Consts) (cfg : GameConfig) (st : GameSt),
        cfg.burningEnabled = false →
        (update env K cfg st).shockwaveIdCounter = st.shockwaveIdCounter ∧
        (update env K cfg st).shockwaves.length ≤ st.shockwaves.length) ∧
    (∀ (env : JsEnv) (K : Consts) (cfg : GameConfig) (mx my : ℚ) (st : GameSt),
        cfg.burningEnabled = false →
        (executeJump env K cfg mx my st).shockwaveIdCounter = st.shockwaveIdCounter ∧
        (executeJump env K cfg mx my st).shockwaves = st.shockwaves) ∧
    (∀ (env : JsEnv) (K : Consts) (cfg : GameConfig) (mx my : ℚ) (st : GameSt),
        cfg.burningEnabled = false →
        (handleGlobalInteraction env K cfg mx my st).shockwaveIdCounter
          = st.shockwaveIdCounter ∧
        (handleGlobalInteraction env K cfg mx my st).shockwaves.length
          ≤ st.shockwaves.length) := by
  refine ⟨?_, fun env K cfg st hb => update_shockwaves_off env K cfg st hb,
    fun env K cfg mx my st hb =>
      ⟨(executeJump_shockwaves_off env K cfg mx my st hb).2,
       (executeJump_shockwaves_off env K cfg mx my st hb).1⟩, ?_⟩
  · intro env cfg pcx pcy sw st acc e hb hd hr hdist
    have hlt : env.sqrt ((e.x - sw.x) * (e.x - sw.x) + (e.y - sw.y) * (e.y - sw.y))
        < sw.radius + e.radius := by linarith
    simp only [swKillStep]
    rw [if_neg (by simp [hd]), if_pos hlt]
    obtain ⟨hsw, hct⟩ := triggerShockwave_on cfg pcx pcy (8/10) st hb
    exact ⟨rfl, hsw, hct⟩
  · intro env K cfg mx my st hb
    by_cases hp : st.gameState = GameState.PLAYING
    · rw [handleGlobalInteraction_playing env K cfg mx my st hp]
      exact ⟨(executeJump_shockwaves_off env K cfg mx my st hb).2,
        le_of_eq (congrArg List.length (executeJump_shockwaves_off env K cfg mx my st hb).1)⟩
    · rw [handleGlobalInteraction_not_playing env K cfg mx my st hp]
      exact ⟨rfl, by simp [resetGame]⟩

/-- A live shockwave of radius 5 centered on the player. -/
def c7sw : Shockwave :=
  { x := 225, y := 285, radius := 5, maxRadius := 80, life := 10, maxLife := 44, id := 0 }

/-- A live enemy at distance 3 from the shockwave center. -/
def c7e : Enemy := { id := 0, x := 228, y := 285, radius := 10, speed := 2, isDead := false }

/-- A state holding `c7sw` and `c7e`. -/
def c7st : GameSt :=
  { rst0 with shockwaves := [c7sw], shockwaveIdCounter := 1, enemies := [c7e] }

/-- Oracle whose `sqrt` is exact at the queried point `9 = 3 * 3`. -/
def c7env : JsEnv := { env0 with sqrt := fun q => if q = 9 then 3 else 0 }

set_option maxRecDepth 8000 in
attribute [local semireducible] Rat.add Rat.sub Rat.mul Rat.inv in
/-- C7 witness: at the concrete shockwave/enemy pair, the kill step marks
the enemy dead and appends exactly the documented chained shockwave. -/
theorem C7_witness :
    (swKillStep c7env cfg0 225 285 c7sw (c7st, []) c7e).2 = [{ c7e with isDead := true }] ∧
    (swKillStep c7env cfg0 225 285 c7sw (c7st, []) c7e).1.shockwaves
      = c7st.shockwaves ++
        [{ x := 225, y := 285, radius := 0, maxRadius := cfg0.burningRadius * (8/10),
           life := cfg0.burningDuration, maxLife := cfg0.burningDuration,
           id := c7st.shockwaveIdCounter }] ∧
    (swKillStep c7env cfg0 225 285 c7sw (c7st, []) c7e).1.shockwaveIdCounter
      = c7st.shockwaveIdCounter + 1 := by
  have h := C7_chain_elimination.1 c7env cfg0 225 285 c7sw c7st [] c7e
    (by decide) (by decide) (by decide) (by decide)
  simpa using h

/-! ### Claim C8: spawn position -/

/-- The nudge guarantees 60 units of separation, except when the clamp to
`[20, GAME_WIDTH - 20]` takes over. -/
theorem spawnXOf_spec (K : Consts) (pcx draw : ℚ) :
    60 ≤ |spawnXOf K pcx draw - pcx| ∨ spawnXOf K pcx draw = 20 ∨
      spawnXOf K pcx draw = K.GAME_WIDTH - 20 := by
  unfold spawnXOf
  by_cases h1 : |draw * (K.GAME_WIDTH - 40) + 20 - pcx| < 60
  · rw [if_pos h1]
    by_cases h2 : draw * (K.GAME_WIDTH - 40) + 20 < pcx
    · rw [if_pos h2]
      rcases le_or_lt 20 (draw * (K.GAME_WIDTH - 40) + 20 - 60) with h3 | h3
      · rw [max_eq_right h3]
        left
        rw [abs_of_nonpos (by linarith)]
        linarith
      · rw [max_eq_left (le_of_lt h3)]
        right; left; rfl
    · rw [if_neg h2]
      push_neg at h2
      rcases le_or_lt (draw * (K.GAME_WIDTH - 40) + 20 + 60) (K.GAME_WIDTH - 20) with h3 | h3
      · rw [min_eq_right h3]
        left
        rw [abs_of_nonneg (by linarith)]
        linarith
      · rw [min_eq_left (le_of_lt h3)]
        right; right; rfl
  · rw [if_neg h1]
    push_neg at h1
    exact Or.inl h1

/-- C8 (amended): every enemy present after the spawn director ran is
either a pre-existing enemy, or a fresh spawn with `y = -30` (fixed above
the visible top edge) and an `x` that is at least 60 units from the
player's captured center x unless the clamp to `[20, GAME_WIDTH - 20]`
bound it, in which case `x` is exactly 20 or `GAME_WIDTH - 20`. -/
theorem C8_spawn_position (env : JsEnv) (K : Consts) (cfg : GameConfig) (pcx : ℚ)
    (st : GameSt) :
    ∀ e ∈ (spawnBlock env K cfg pcx st).enemies,
      e ∈ st.enemies ∨
        (e.y = -30 ∧ (60 ≤ |e.x - pcx| ∨ e.x = 20 ∨ e.x = K.GAME_WIDTH - 20)) := by
  intro e he
  simp only [spawnBlock] at he
  split at he
  · rcases List.mem_append.mp he with h | h
    · exact Or.inl h
    · have hx := List.mem_singleton.mp h
      subst hx
      exact Or.inr ⟨rfl, spawnXOf_spec K pcx _⟩
  · exact Or.inl he

/-- A configuration that spawns with probability 1/2 and keeps the player
static. -/
def c8cfg : GameConfig :=
  { cfg0 with gravity := 0, enemySpawnRate := 1/2, difficultyScale := 0, spawnCurve := [0, 0] }

/-- A `PLAYING` state with the player near the left wall (center x = 70). -/
def c8st : GameSt where
  gameState := GameState.PLAYING
  score := 0
  elapsedTime := 0
  invincibilityFrames := 0
  player := { x := 60, y := 100, width := 20, height := 20, vx := 0, vy := 0,
              fuel := 100, maxFuel := 100, flashTimer := 0 }
  enemies := []
  particles := []
  pulses := []
  shockwaves := []
  shake := { x := 0, y := 0, intensity := 0 }
  enemyIdCounter := 0
  shockwaveIdCounter := 0
  randIdx := 0
  sounds := []

/-- Oracle for the C8 tick: spawn roll 0, X draw 1/82 (raw X 25), radius and
speed draws 0; `sqrt` returns 100 for the (far) contact check, consistent
with the real distance being far above the contact threshold. -/
def c8env : JsEnv :=
  { env0 with
    sqrt := fun _ => 100
    rand := fun n => if n = 0 then 0 else if n = 1 then 1/82 else 0 }

set_option maxRecDepth 8000 in
attribute [local semireducible] Rat.add Rat.sub Rat.mul Rat.inv in
/-- C8 counterexample: with the player's center at x = 70, the draw 25 is
nudged to -35 and clamped to 20, so the spawned enemy sits 50 units from
the player — closer than the claimed 60-unit exclusion. -/
theorem C8_counterexample :
    c8st.enemies = [] ∧
    c8st.player.x + c8st.player.width / 2 = 70 ∧
    (update c8env K0 c8cfg c8st).enemyIdCounter = c8st.enemyIdCounter + 1 ∧
    (update c8env K0 c8cfg c8st).enemies.map (fun e => e.x) = [20] ∧
    |(20 : ℚ) - 70| < 60 := by
  decide

/-- The enemy spawned by `spawnBlock c8env K0 c8cfg 70 c8st`. -/
def c8e : Enemy := { id := 0, x := 20, y := -30, radius := 10, speed := 3/2, isDead := false }

set_option maxRecDepth 8000 in
attribute [local semireducible] Rat.add Rat.sub Rat.mul Rat.inv in
/-- C8 witness: the clamped spawn of the concrete tick satisfies the
amended disjunction (here through its `x = 20` clamp case). -/
theorem C8_witness :
    c8e ∈ c8st.enemies ∨
      (c8e.y = -30 ∧ (60 ≤ |c8e.x - 70| ∨ c8e.x = 20 ∨ c8e.x = K0.GAME_WIDTH - 20)) :=
  C8_spawn_position c8env K0 c8cfg 70 c8st c8e (by decide)

/-! ### Claim C9: jump targeted at the player's own center -/

/-- Zero-direction jump behaviour: with `Math.sqrt(0) = 0` replaced by 1 by
the `|| 1` guard, the recoil velocity is exactly `(0, 0)`, and the pulse and
the recoil burst are still emitted. -/
theorem executeJump_zero_dist (env : JsEnv) (K : Consts) (cfg : GameConfig) (st : GameSt)
    (hs : env.sqrt 0 = 0) (hf : ¬ st.player.fuel < cfg.fuelConsumption) :
    (executeJump env K cfg (st.player.x + st.player.width / 2)
        (st.player.y + st.player.height / 2) st).player.vx = 0 ∧
    (executeJump env K cfg (st.player.x + st.player.width / 2)
        (st.player.y + st.player.height / 2) st).player.vy = 0 ∧
    (executeJump env K cfg (st.player.x + st.player.width / 2)
        (st.player.y + st.player.height / 2) st).pulses.length = st.pulses.length + 1 ∧
    st.particles.length + 20
      ≤ (executeJump env K cfg (st.player.x + st.player.width / 2)
          (st.player.y + st.player.height / 2) st).particles.length := by
  unfold executeJump
  rw [if_neg hf]
  by_cases hdz : (cfg.deadJumpEnabled
      && decide (st.player.y + st.player.height > K.GAME_HEIGHT * (1 - cfg.deadZoneThreshold))) = true
  · refine ⟨?_, ?_, ?_, ?_⟩
    · simp [hdz, hs, jumpLoop_vx]
    · simp [hdz, hs, jumpLoop_vy]
    · simp [hdz, jumpLoop_pulses]
    · simp only [hdz, Bool.not_true, Bool.false_eq_true, if_false, List.length_append,
        List.length_map, List.length_range]
      refine le_trans ?_ (Nat.add_le_add_right
        (jumpLoop_particles_mono env cfg _ _ _ _ st.enemies _ []) _)
      show st.particles.length + 20 ≤ st.particles.length + 40
      omega
  · simp only [Bool.not_eq_true] at hdz
    refine ⟨?_, ?_, ?_, ?_⟩
    · simp [hdz, hs, jumpLoop_vx]
    · simp [hdz, hs, jumpLoop_vy]
    · simp [hdz, jumpLoop_pulses]
    · simp only [hdz, Bool.not_false, if_true, List.length_append,
        List.length_map, List.length_range]
      refine le_trans ?_ (Nat.add_le_add_right
        (jumpLoop_particles_mono env cfg _ _ _ _ st.enemies _ []) _)
      show st.particles.length + 20 ≤ st.particles.length + 20
      omega

set_option maxRecDepth 8000 in
attribute [local semireducible] Rat.add Rat.sub Rat.mul Rat.inv in
/-- C9 counterexample: a jump targeted exactly at the player's center with
an enemy below inside the band is safe (velocity `(0, 0)`), but the kill
refill leaves fuel at `maxFuel = 100` instead of the claimed
`fuel - fuelConsumption = 88`. -/
theorem C9_counterexample :
    cfg0.fuelConsumption ≤ c1st.player.fuel ∧
    env0.sqrt 0 = 0 ∧
    (executeJump env0 K0 cfg0 225 285 c1st).player.vx = 0 ∧
    (executeJump env0 K0 cfg0 225 285 c1st).player.vy = 0 ∧
    (executeJump env0 K0 cfg0 225 285 c1st).player.fuel = 100 ∧
    ¬ (executeJump env0 K0 cfg0 225 285 c1st).player.fuel
        = c1st.player.fuel - cfg0.fuelConsumption := by
  decide

/-- C9 (amended): a funded jump whose target is exactly the player's center
performs no division by zero — the zero distance is replaced by 1, the jump
succeeds with player velocity exactly `(0, 0)`, fuel is reduced by
`fuelConsumption` (or refilled to `maxFuel` when the pulse eliminates an
enemy), and a pulse and the recoil particles are still emitted. -/
theorem C9_zero_distance_jump (env : JsEnv) (K : Consts) (cfg : GameConfig) (st : GameSt)
    (hs : env.sqrt 0 = 0) (hf : cfg.fuelConsumption ≤ st.player.fuel) :
    (executeJump env K cfg (st.player.x + st.player.width / 2)
        (st.player.y + st.player.height / 2) st).player.vx = 0 ∧
    (executeJump env K cfg (st.player.x + st.player.width / 2)
        (st.player.y + st.player.height / 2) st).player.vy = 0 ∧
    (executeJump env K cfg (st.player.x + st.player.width / 2)
        (st.player.y + st.player.height / 2) st).player.fuel
      = (if st.enemies.any (fun e =>
            pulseHits (st.player.x + st.player.width / 2) (st.player.y + st.player.height / 2)
              (pulseWidthOf st.player (inDeadZoneOf K cfg st.player))
              (inDeadZoneOf K cfg st.player) e)
         then st.player.maxFuel
         else st.player.fuel - cfg.fuelConsumption) ∧
    (executeJump env K cfg (st.player.x + st.player.width / 2)
        (st.player.y + st.player.height / 2) st).pulses.length = st.pulses.length + 1 ∧
    st.particles.length + 20
      ≤ (executeJump env K cfg (st.player.x + st.player.width / 2)
          (st.player.y + st.player.height / 2) st).particles.length :=
  have hz := executeJump_zero_dist env K cfg st hs (not_lt.mpr hf)
  ⟨hz.1, hz.2.1, executeJump_fuel env K cfg _ _ st (not_lt.mpr hf), hz.2.2.1, hz.2.2.2⟩

set_option maxRecDepth 8000 in
attribute [local semireducible] Rat.add Rat.sub Rat.mul Rat.inv in
/-- C9 witness: the zero-distance jump at the concrete reset state (no
enemies) gives velocity `(0, 0)`, fuel 88, one pulse and the 20-particle
burst. -/
theorem C9_witness :
    (executeJump env0 K0 cfg0 (rst0.player.x + rst0.player.width / 2)
        (rst0.player.y + rst0.player.height / 2) rst0).player.vx = 0 ∧
    (executeJump env0 K0 cfg0 (rst0.player.x + rst0.player.width / 2)
        (rst0.player.y + rst0.player.height / 2) rst0).player.fuel
      = rst0.player.fuel - cfg0.fuelConsumption ∧
    (executeJump env0 K0 cfg0 (rst0.player.x + rst0.player.width / 2)
        (rst0.player.y + rst0.player.height / 2) rst0).pulses.length
      = rst0.pulses.length + 1 := by
  have h := C9_zero_distance_jump env0 K0 cfg0 rst0 (by decide) (by decide)
  refine ⟨h.1, ?_, h.2.2.2.1⟩
  rw [h.2.2.1]
  decide

/-! ### Claim C10: the lethal-contact check ignores `isDead` -/

theorem Reachable_updateN (env : JsEnv) (K : Consts) (cfg : GameConfig)
    (hc : 0 ≤ cfg.fuelConsumption) (hr : 0 ≤ cfg.fuelRegen) :
    ∀ (n : ℕ) (st : GameSt), Reachable K st → Reachable K (updateN env K cfg n st) := by
  intro n
  induction n with
  | zero => exact fun st h => h
  | succ n ih =>
    intro st h
    rw [updateN_succ]
    exact Reachable.tick env cfg _ hc hr (ih st h)

/-- Constants for the C10 scenario (a 450 x 210 canvas). -/
def K10 : Consts where
  GAME_WIDTH := 450
  GAME_HEIGHT := 210
  MAX_FUEL := 100
  AIR_RESISTANCE := 17/20

/-- Configuration for the C10 scenario: zero gravity and a zero-direction
jump keep the player fixed at center `(225, 55)`; spawn probability 1/2,
wide player (`playerSize` 100, contact threshold `radius + 48`), burning
shockwaves of radius 60 living 2 ticks. -/
def c10cfg : GameConfig where
  gravity := 0
  recoilForce := 6
  fuelRegen := 0
  fuelConsumption := 12
  enemySpawnRate := 1/2
  bounceElasticity := 1
  difficultyScale := 264
  deadZoneThreshold := 3/20
  superJumpMultiplier := 3
  spawnCurve := [0, 0]
  deadJumpEnabled := false
  burningEnabled := true
  burningRadius := 60
  burningDuration := 2
  playerSize := 100
  audioEnabled := false
  bgmVolume := 0
  sfxVolume := 0

/-- Oracle for the C10 scenario.  `sqrt` is exact at the decisive points:
`sqrt 0 = 0` (the zero-direction jump), `sqrt 4225 = 65` (enemy 1 straight
line 60/25/65 triple, the shockwave kill) and `sqrt (15625/4) = 125/2`
(60/17.5/62.5 triple, the lethal contact); everywhere else it returns 1000,
on the same side of every comparison as the exact square root (all other
queried squared distances exceed the squared thresholds).  `sinpi (1/2) = 1`
is exact (`sin (π/2) = 1`); the `rand` stream spawns enemy 1 on tick 1
(x 285, radius 10, speed 2.7) and enemy 2 on tick 25 (x 285, radius 15,
speed 7.5) and rolls 1/2 (below no threshold) everywhere else. -/
def c10env : JsEnv where
  sqrt := fun q => if q = 0 then 0 else if q = 4225 then 65 else if q = 15625/4 then 125/2 else 1000
  sin := fun _ => 0
  cos := fun _ => 0
  atan2 := fun _ _ => 0
  sinpi := fun p => if p = 1/2 then 1 else 0
  rand := fun n =>
    if n = 0 ∨ n = 2 ∨ n = 27 then 0
    else if n = 1 ∨ n = 28 then 53/82
    else if n = 3 then 49/50
    else if n = 29 then 5/12
    else 1/2

/-- The C10 run: reset, 32 ticks (two spawns and their falls), then a
zero-direction jump that kills enemy 0 under the pulse and leaves a
shockwave; `c10post` is the state right before the decisive tick. -/
def c10start : GameSt := resetGame K10 c10cfg (initState K10 c10cfg)

/-- State after the 32 pre-jump ticks. -/
def c10stJ : GameSt := updateN c10env K10 c10cfg 32 c10start

/-- State right after the jump interaction, before the decisive tick. -/
def c10post : GameSt := handleGlobalInteraction c10env K10 c10cfg 225 55 c10stJ

/-- The decisive tick, stopped after the shockwave pass (the stages of
`update` before the spawn director and the movement/contact sweep). -/
def c10mid : GameSt :=
  shockwavePass c10env c10cfg 225 55
    (tickPulses (integrateParticles c10cfg
      (integratePlayer c10env K10 c10cfg
        (tickTimers { c10post with elapsedTime := c10post.elapsedTime + 1 }))))

set_option maxRecDepth 8000 in
attribute [local semireducible] Rat.add Rat.sub Rat.mul Rat.inv in
/-- C10: the lethal-contact check does not test `isDead`.  In the reachable
`PLAYING` state `c10post`, the decisive tick's shockwave pass marks enemy 1
dead (at pre-move position y = 30, distance 65 < shockwave radius 60 +
enemy radius 15), the enemy still moves by its speed 7.5, its post-move
distance 62.5 (an exact square root) is below the contact threshold
`radius + playerWidth/2 - 2 = 63` with no invincibility, and the very same
tick ends in `GAMEOVER`. -/
theorem C10_dead_enemy_contact :
    Reachable K10 c10post ∧
    (c10post.gameState = GameState.PLAYING ∧
     c10post.enemies.map (fun e => (e.id, e.isDead)) = [(0, true), (1, false)] ∧
     c10post.invincibilityFrames ≤ 0 ∧
     c10mid.gameState = GameState.PLAYING ∧
     c10mid.enemies.map (fun e => (e.id, e.y, e.isDead))
       = [(0, 282/5, true), (1, 30, true)] ∧
     c10env.sqrt ((285 - 225) * (285 - 225) + (30 + (15/2) * 1 - 55) * (30 + (15/2) * 1 - 55))
       = 125/2 ∧
     (125/2 : ℚ) * (125/2)
       = (285 - 225) * (285 - 225) + (30 + (15/2) * 1 - 55) * (30 + (15/2) * 1 - 55) ∧
     (125/2 : ℚ) < 15 + c10post.player.width / 2 - 2 ∧
     (moveAndContact c10env 225 55 (spawnBlock c10env K10 c10cfg 225 c10mid)).gameState
       = GameState.GAMEOVER ∧
     update c10env K10 c10cfg c10post
       = pruneEnemies K10
           (moveAndContact c10env 225 55 (spawnBlock c10env K10 c10cfg 225 c10mid)) ∧
     (update c10env K10 c10cfg c10post).gameState = GameState.GAMEOVER) := by
  constructor
  · have h1 : Reachable K10 c10start := by
      have h := Reachable.interact c10env c10cfg 225 55 (initState K10 c10cfg)
        (by decide) (by decide) (Reachable.init c10cfg)
      rwa [handleGlobalInteraction_not_playing c10env K10 c10cfg 225 55 _ (by decide)] at h
    exact Reachable.interact c10env c10cfg 225 55 c10stJ (by decide) (by decide)
      (Reachable_updateN c10env K10 c10cfg (by decide) (by decide) 32 c10start h1)
  · decide

end OCJS
